import Mathlib

/-!
# freedv_ptt: session controller, rig commands

A shallow embedding of `freedv_ptt2.46.c`.  The program is a single-threaded
GTK application; each callback is modelled as a function from the global
variables (`State`) and the results of the system calls it makes (`Env`) to an
`Outcome`: the globals afterwards, the ordered list of effects (`Event`) and
whether the process is still running.

Diagnostic output (`printf`, `perror`) and the reads of `config.ini` done by the
`load_*` helpers are not effects of the trace; the values the `load_*` helpers
return inside a callback are fields of `Env`.  The functions on the
configuration file itself (`create_default_config`, `save_config`,
`load_config`) are modelled on the text of the file.
-/

namespace FreedvPtt

/-! ## Constants of the C library headers -/

/-- Value of `EXIT_FAILURE` in `<stdlib.h>`. -/
def EXIT_FAILURE : Nat := 1

/-- Value of `ESRCH` ("no such process") in `<errno.h>`. -/
def ESRCH : Nat := 3

/-- Value of `SIGTERM` in `<signal.h>`. -/
def SIGTERM : Nat := 15

/-! ## Data model -/

/-- The global variables `rxtx_mode`, `tx_pid`, `rx_pid`, `python_pid`.
`rxtx_mode` is -1 when no mode is selected, 0 for TX, 1 for RX. -/
structure State where
  rxtx_mode : Int
  tx_pid : Int
  rx_pid : Int
  python_pid : Int
  deriving DecidableEq, Repr

/-- The globals at program start: `rxtx_mode = -1`, the pids zero-initialised. -/
def initial_state : State :=
  { rxtx_mode := -1, tx_pid := 0, rx_pid := 0, python_pid := 0 }

/-- Effects of the program, in program order.  The `store_*` events are the
assignments to the pid and mode globals. -/
inductive Event where
  | usleep (usec : Nat)
  | nanosleep (sec nsec : Nat)
  | killpg (pgrp : Int) (sig : Nat)
  | fork
  | setpgid (pid pgid : Int)
  | execl (path : String) (args : List String)
  | send_server (bytes : String)
  | send_telnet (bytes : String)
  | ipc_send (bytes : String)
  | store_tx_pid (v : Int)
  | store_rx_pid (v : Int)
  | store_rxtx_mode (v : Int)
  | exit (status : Nat)
  | store_python_pid (v : Int)
  | kill (pid : Int) (sig : Nat)
  | waitpid (pid : Int)
  | close_server
  | gtk_main_quit
  deriving DecidableEq, Repr

/-- How a callback leaves the process: still running, terminated by `exit`,
replaced by another program image (`execl` succeeded, child only), having
written past the end of a fixed-size buffer (undefined behaviour), or waiting
in a blocking call that does not return. -/
inductive Status where
  | running
  | exited (status : Nat)
  | replaced
  | overflow
  | blocked
  deriving DecidableEq, Repr

/-- Result of running a piece of the program. -/
structure Outcome where
  state : State
  trace : List Event
  status : Status
  deriving DecidableEq, Repr

/-- The same outcome with the effects `tr` having happened first. -/
def Outcome.after (o : Outcome) (tr : List Event) : Outcome :=
  { o with trace := tr ++ o.trace }

/-- Sequencing of statements: the continuation runs only while the process is
still running; the traces are concatenated. -/
def Outcome.andThen (o : Outcome) (k : State → Outcome) : Outcome :=
  match o.status with
  | Status.running => (k o.state).after o.trace
  | _ => o

/-- Results of the system calls made during one callback, and the values read
from the configuration file at that moment.  `killpg_ret i` / `killpg_errno i`
belong to the i-th `killpg` call of the callback and `send_ret i` to its i-th
`send` on a rig socket, both counted from 0. -/
structure Env where
  killpg_ret : Nat → Int
  killpg_errno : Nat → Nat
  fork_ret : Int
  setpgid_ret : Int
  execl_ok : Bool
  send_ret : Nat → Int
  ipc_socket_ret : Int
  ipc_inet_pton_ret : Int
  ipc_connect_ret : Int
  input_level : Int
  squelch_level : Int
  fdvmode : String
  callsign : String

/-! ## C string helpers -/

/-- Search for `needle` in the remaining haystack, `i` being the offset reached. -/
def strstr_at (needle : List Char) : List Char → Nat → Option Nat
  | [], i => if needle.isPrefixOf [] then some i else none
  | c :: cs, i => if needle.isPrefixOf (c :: cs) then some i else strstr_at needle cs (i + 1)

/-- The C `strstr`: offset of the first occurrence of `needle` in `haystack`,
`none` for the null pointer. -/
def strstr (haystack needle : String) : Option Nat :=
  strstr_at needle.toList haystack.toList 0

/-- A `sprintf` of the already formatted text `s` into a `char[cap]` buffer:
the text and its terminating NUL must fit. -/
def sprintf_into (cap : Nat) (s : String) : Option String :=
  if s.utf8ByteSize < cap then some s else none

/-- The C `isspace` in the "C" locale. -/
def isspace (c : Char) : Bool :=
  c = ' ' || c = '\t' || c = '\n' || c = '\x0b' || c = '\x0c' || c = '\r'

/-- Accumulate the leading decimal digits. -/
def atoi_digits : List Char → Int → Int
  | [], acc => acc
  | c :: cs, acc => if c.isDigit then atoi_digits cs (acc * 10 + ((c.toNat - 48 : Nat) : Int)) else acc

/-- The C `atoi` (without the overflow of `int`): leading white space, an
optional sign, then decimal digits. -/
def atoi (s : String) : Int :=
  match s.toList.dropWhile isspace with
  | '-' :: cs => - atoi_digits cs 0
  | '+' :: cs => atoi_digits cs 0
  | cs => atoi_digits cs 0

/-! ## Reporter bridge and rig control socket -/

/-- `send_ipc_command`: open a socket to 127.0.0.1:50007 and send the command;
each failure only returns. -/
def send_ipc_command (env : Env) (command : String) (s : State) : Outcome :=
  if env.ipc_socket_ret < 0 then Outcome.mk s [] Status.running
  else if env.ipc_inet_pton_ret ≤ 0 then Outcome.mk s [] Status.running
  else if env.ipc_connect_ret < 0 then Outcome.mk s [] Status.running
  else Outcome.mk s [Event.ipc_send command] Status.running

/-- `send_command`: send on `sockfd_server` (the Hamlib net server); a failed
send exits.  `i` is the index of this `send` within the callback. -/
def send_command (env : Env) (i : Nat) (command : String) (s : State) : Outcome :=
  if env.send_ret i < 0 then
    Outcome.mk s [Event.send_server command, Event.exit EXIT_FAILURE] (Status.exited EXIT_FAILURE)
  else Outcome.mk s [Event.send_server command] Status.running

/-! ## TX / RX buttons -/

/-- The shell command of the transmit pipeline (`sprintf` format of `tx_command`). -/
def tx_command_text (env : Env) : String :=
  "arecord -f S16_LE -c 1 -r 8000 -D plughw:CARD=5,DEV=0 | sox -t raw -r 8000 -e signed -b 16 -c 1 - -t raw - vol "
    ++ toString env.input_level ++ "dB | ./freedv_tx " ++ env.fdvmode ++ " --reliabletext " ++ env.callsign
    ++ " - - | aplay -f S16_LE -D plughw:CARD=2,DEV=0 --buffer-size=8192"

/-- The shell command of the receive pipeline (`sprintf` format of `rx_command`). -/
def rx_command_text (env : Env) : String :=
  "arecord -f S16_LE -c 1 -r 8000 -D plughw:CARD=1,DEV=1 |./freedv_rx " ++ env.fdvmode ++ " --squelch "
    ++ toString env.squelch_level ++ " - - -| aplay -f S16_LE -D plughw:CARD=5,DEV=0"

/-- Body of the `fork() == 0` branch of both button callbacks: the child makes
itself a process-group leader and executes the pipeline through `/bin/sh`. -/
def pipeline_child (env : Env) (command_text : String) (s : State) : Outcome :=
  if env.setpgid_ret = -1 then
    Outcome.mk s [Event.setpgid 0 0, Event.exit EXIT_FAILURE] (Status.exited EXIT_FAILURE)
  else
    match sprintf_into 256 command_text with
    | none => Outcome.mk s [Event.setpgid 0 0] Status.overflow
    | some cmd =>
      if env.execl_ok then
        Outcome.mk s [Event.setpgid 0 0, Event.execl "/bin/sh" ["sh", "-c", cmd]] Status.replaced
      else
        Outcome.mk s [Event.setpgid 0 0, Event.execl "/bin/sh" ["sh", "-c", cmd], Event.exit EXIT_FAILURE]
          (Status.exited EXIT_FAILURE)

/-- `on_tx_button_clicked`. -/
def on_tx_button_clicked (env : Env) (s : State) : Outcome :=
  if s.rxtx_mode ≠ 0 then
    (if 0 < s.rx_pid then
      if env.killpg_ret 0 = -1 ∧ env.killpg_errno 0 ≠ ESRCH then
        Outcome.mk s [Event.killpg s.rx_pid SIGTERM, Event.exit EXIT_FAILURE] (Status.exited EXIT_FAILURE)
      else
        Outcome.mk { s with rx_pid := 0 } [Event.killpg s.rx_pid SIGTERM, Event.store_rx_pid 0] Status.running
    else Outcome.mk s [] Status.running).andThen fun s1 =>
    (Outcome.mk { s1 with tx_pid := env.fork_ret } [Event.fork, Event.store_tx_pid env.fork_ret]
      Status.running).andThen fun s2 =>
    (if env.fork_ret = 0 then pipeline_child env (tx_command_text env) s2
      else Outcome.mk s2 [] Status.running).andThen fun s3 =>
    (Outcome.mk { s3 with rxtx_mode := 0 } [Event.store_rxtx_mode 0] Status.running).andThen fun s4 =>
    (send_command env 0 "T 1\n" s4).andThen fun s5 =>
    send_ipc_command env "TX_ON" s5
  else Outcome.mk s [] Status.running

/-- `on_rx_button_clicked`. -/
def on_rx_button_clicked (env : Env) (s : State) : Outcome :=
  if s.rxtx_mode ≠ 1 then
    (if 0 < s.tx_pid then
      if env.killpg_ret 0 = -1 ∧ env.killpg_errno 0 ≠ ESRCH then
        Outcome.mk s [Event.usleep 1500000, Event.killpg s.tx_pid SIGTERM, Event.exit EXIT_FAILURE]
          (Status.exited EXIT_FAILURE)
      else
        Outcome.mk { s with tx_pid := 0 }
          [Event.usleep 1500000, Event.killpg s.tx_pid SIGTERM, Event.store_tx_pid 0] Status.running
    else Outcome.mk s [] Status.running).andThen fun s1 =>
    (Outcome.mk { s1 with rx_pid := env.fork_ret } [Event.fork, Event.store_rx_pid env.fork_ret]
      Status.running).andThen fun s2 =>
    (if env.fork_ret = 0 then pipeline_child env (rx_command_text env) s2
      else Outcome.mk s2 [] Status.running).andThen fun s3 =>
    (Outcome.mk { s3 with rxtx_mode := 1 } [Event.store_rxtx_mode 1] Status.running).andThen fun s4 =>
    (send_command env 0 "T 0\n" s4).andThen fun s5 =>
    send_ipc_command env "TX_OFF" s5
  else Outcome.mk s [] Status.running

/-! ## Frequency and mode commands on the telnet socket -/

/-- The local variable `mode_command` of `change_mode`. -/
def change_mode_command (frequency : String) : String :=
  if (strstr frequency "1997").isSome || (strstr frequency "3625").isSome
      || (strstr frequency "3643").isSome || (strstr frequency "3693").isSome
      || (strstr frequency "3697").isSome || (strstr frequency "3850").isSome
      || (strstr frequency "7177").isSome || (strstr frequency "7197").isSome then
    "m LSB"
  else
    "m DIGITAL"

/-- `change_mode`: send the mode command on `sockfd_telnet`, then sleep 200 ms.
`i` is the index of this `send` within the callback. -/
def change_mode (env : Env) (i : Nat) (frequency : String) (s : State) : Outcome :=
  match sprintf_into 20 (change_mode_command frequency) with
  | none => Outcome.mk s [] Status.overflow
  | some command =>
    if env.send_ret i < 0 then
      Outcome.mk s [Event.send_telnet command, Event.exit EXIT_FAILURE] (Status.exited EXIT_FAILURE)
    else
      Outcome.mk s [Event.send_telnet command, Event.nanosleep 0 200000000] Status.running

/-- One checked `send` of a constant command on `sockfd_telnet` followed by the
200 ms `nanosleep`, as repeated in `change_frequency`. -/
def send_telnet_paced (env : Env) (i : Nat) (command : String) (s : State) : Outcome :=
  if env.send_ret i < 0 then
    Outcome.mk s [Event.send_telnet command, Event.exit EXIT_FAILURE] (Status.exited EXIT_FAILURE)
  else
    Outcome.mk s [Event.send_telnet command, Event.nanosleep 0 200000000] Status.running

/-- `change_frequency`. -/
def change_frequency (env : Env) (frequency : String) (s : State) : Outcome :=
  match sprintf_into 20 ("f " ++ frequency) with
  | none => Outcome.mk s [] Status.overflow
  | some command =>
    (send_telnet_paced env 0 command s).andThen fun s1 =>
    (change_mode env 1 frequency s1).andThen fun s2 =>
    (send_telnet_paced env 2 "PITCH 1500" s2).andThen fun s3 =>
    (send_telnet_paced env 3 "LOW 900" s3).andThen fun s4 =>
    send_telnet_paced env 4 "HIGH 2100" s4

/-! ## Sequences of button clicks -/

/-- A click delivered by the GTK main loop. -/
inductive Request where
  | transmit
  | receive
  deriving DecidableEq, Repr

/-- The callback connected to the clicked button. -/
def handle (r : Request) (env : Env) (s : State) : Outcome :=
  match r with
  | Request.transmit => on_tx_button_clicked env s
  | Request.receive => on_rx_button_clicked env s

/-- The main loop delivering clicks one at a time, each with the system-call
results of its callback; nothing is delivered once the process has stopped. -/
def run_clicks : List (Request × Env) → State → Outcome
  | [], s => Outcome.mk s [] Status.running
  | (r, env) :: rest, s => (handle r env s).andThen (run_clicks rest)

/-- The payloads sent on `sockfd_telnet`, in order. -/
def telnet_sends : List Event → List String
  | [] => []
  | Event.send_telnet b :: es => b :: telnet_sends es
  | _ :: es => telnet_sends es

/-- The payloads sent on `sockfd_server`, in order. -/
def server_sends : List Event → List String
  | [] => []
  | Event.send_server b :: es => b :: server_sends es
  | _ :: es => server_sends es

/-- The payloads sent to the reporter bridge, in order. -/
def ipc_sends : List Event → List String
  | [] => []
  | Event.ipc_send b :: es => b :: ipc_sends es
  | _ :: es => ipc_sends es

/-- An environment in which every system call succeeds and `fork` returns `pid`
to the parent. -/
def env_ok (pid : Int) : Env :=
  { killpg_ret := fun _ => 0, killpg_errno := fun _ => 0, fork_ret := pid, setpgid_ret := 0,
    execl_ok := true, send_ret := fun _ => 1, ipc_socket_ret := 3, ipc_inet_pton_ret := 1,
    ipc_connect_ret := 0, input_level := 1, squelch_level := -5, fdvmode := "700D",
    callsign := "N0CALL" }

/-! ## Frequency menu -/

/-- Second loop of `menu_item_selected`: copy the digits and skip the dots until
a character that is neither. -/
def copy_digits : List Char → List Char
  | [] => []
  | c :: cs =>
    if c.isDigit || c = '.' then
      if c ≠ '.' then c :: copy_digits cs else copy_digits cs
    else []

/-- The text `menu_item_selected` extracts from the label: skip to the first
digit, then `copy_digits`. -/
def extract_frequency (full_text : String) : String :=
  String.mk (copy_digits (full_text.toList.dropWhile fun c => !c.isDigit))

/-- The arguments of `sprintf(command, "FREQ_CHANGE %d", freq_khz)`. -/
def freq_change_command (frequency : String) : String :=
  "FREQ_CHANGE " ++ toString (atoi frequency)

/-- `menu_item_selected` for a menu item whose label is `full_text`.  The
extracted digits and their NUL must fit `frequency[10]`; `command[50]` holds
"FREQ_CHANGE " and any `int`. -/
def menu_item_selected (env : Env) (full_text : String) (s : State) : Outcome :=
  if 9 < (extract_frequency full_text).utf8ByteSize then Outcome.mk s [] Status.overflow
  else
    (change_frequency env (extract_frequency full_text) s).andThen fun s1 =>
    send_ipc_command env (freq_change_command (extract_frequency full_text)) s1

/-- The labels of the frequency menu built in `main`, in menu order. -/
def menu_labels : List String :=
  ["3.625 MHz", "3.643 MHz", "3.693 MHz", "3.697 MHz", "3.850 MHz",
   "7.177 MHz", "7.197 MHz",
   "14.236 MHz", "14.240 MHz", "18.118 MHz", "21.313 MHz", "24.933 MHz",
   "28.330 MHz", "28.720 MHz"]

/-! ## Window close, reporter bridge start and shutdown -/

/-- `on_window_closed`.  The `killpg` of the receive group is the second
`killpg` call when the transmit group was signalled, the first otherwise. -/
def on_window_closed (env : Env) (s : State) : Outcome :=
  (Outcome.mk s [Event.close_server] Status.running).andThen fun s0 =>
  (if 0 < s0.tx_pid then
    if env.killpg_ret 0 = -1 ∧ env.killpg_errno 0 ≠ ESRCH then
      Outcome.mk s0 [Event.killpg s0.tx_pid SIGTERM, Event.exit EXIT_FAILURE] (Status.exited EXIT_FAILURE)
    else
      Outcome.mk { s0 with tx_pid := 0 } [Event.killpg s0.tx_pid SIGTERM, Event.store_tx_pid 0]
        Status.running
  else Outcome.mk s0 [] Status.running).andThen fun s1 =>
  (if 0 < s1.rx_pid then
    if env.killpg_ret (if 0 < s.tx_pid then 1 else 0) = -1 ∧
        env.killpg_errno (if 0 < s.tx_pid then 1 else 0) ≠ ESRCH then
      Outcome.mk s1 [Event.killpg s1.rx_pid SIGTERM, Event.exit EXIT_FAILURE] (Status.exited EXIT_FAILURE)
    else
      Outcome.mk { s1 with rx_pid := 0 } [Event.killpg s1.rx_pid SIGTERM, Event.store_rx_pid 0]
        Status.running
  else Outcome.mk s1 [] Status.running).andThen fun s2 =>
  Outcome.mk s2 [Event.gtk_main_quit] Status.running

/-- `start_python_script`: the child executes the bridge script (it does not
call `setpgid`), a failed `fork` exits, the parent keeps the pid. -/
def start_python_script (env : Env) (s : State) : Outcome :=
  (Outcome.mk { s with python_pid := env.fork_ret } [Event.fork, Event.store_python_pid env.fork_ret]
    Status.running).andThen fun s1 =>
  if env.fork_ret = 0 then
    if env.execl_ok then
      Outcome.mk s1 [Event.execl "/usr/bin/python3" ["python3", "/home/pi/freedv_ptt/sioclient.py"]]
        Status.replaced
    else
      Outcome.mk s1
        [Event.execl "/usr/bin/python3" ["python3", "/home/pi/freedv_ptt/sioclient.py"],
          Event.exit EXIT_FAILURE]
        (Status.exited EXIT_FAILURE)
  else if env.fork_ret < 0 then
    Outcome.mk s1 [Event.exit EXIT_FAILURE] (Status.exited EXIT_FAILURE)
  else Outcome.mk s1 [] Status.running

/-- `handle_termination`.  The results of `kill` and `waitpid` are not used by
the code; `waitpid(python_pid, NULL, 0)` blocks until that child has terminated,
and `waitpid_returns` tells whether it does. -/
def handle_termination (waitpid_returns : Bool) (s : State) : Outcome :=
  (if 0 < s.python_pid then
    if waitpid_returns then
      Outcome.mk s [Event.kill (-s.python_pid) SIGTERM, Event.waitpid s.python_pid] Status.running
    else
      Outcome.mk s [Event.kill (-s.python_pid) SIGTERM, Event.waitpid s.python_pid] Status.blocked
  else Outcome.mk s [] Status.running).andThen fun s1 =>
  Outcome.mk s1 [Event.close_server, Event.exit 0] (Status.exited 0)

/-! ## Configuration file

The content of `config.ini` is a text, one `Char` per byte, without NUL bytes;
`none` stands for a file that cannot be opened. -/

/-- Value of `RELEASE_VERSION`. -/
def RELEASE_VERSION : String := "2.4.6a"

/-- The text written by `create_default_config`. -/
def default_config_text : String :=
  "fdvmode=700D\n" ++ "callsign=N0CALL\n" ++ "grid_square=AA00ab\n" ++ "squelch_level=-5\n" ++
    "input_level=1\n" ++ "start_mode=-1\n" ++ "version=sBitx fdv_ptt " ++ RELEASE_VERSION ++ "\n" ++
    "message=--\n"

/-- `create_default_config`: `fopen(CONFIG_FILE, "w")` and eight `fprintf`;
nothing is written when the file cannot be opened. -/
def create_default_config (fopen_ok : Bool) (file : Option String) : Option String :=
  if fopen_ok then some default_config_text else file

/-- The successive results of `fgets(line, size, file)` over the text: a line
ends after a newline or after `size - 1` characters.  `cur` is the line read so
far, reversed, and `room` the number of characters it can still take. -/
def fgets_lines (size : Nat) : List Char → List Char → Nat → List (List Char)
  | [], cur, _ => if cur.isEmpty then [] else [cur.reverse]
  | c :: cs, cur, room =>
    if c = '\n' ∨ room ≤ 1 then (c :: cur).reverse :: fgets_lines size cs [] (size - 1)
    else fgets_lines size cs (c :: cur) (room - 1)

/-- The text of `fprintf(tempFile, "%s=%s\n", key, value)`. -/
def config_line (key value : List Char) : List Char :=
  key ++ '=' :: (value ++ ['\n'])

/-- The test `strstr(line, key) == line`. -/
def line_starts_with (key line : List Char) : Bool :=
  strstr_at key line 0 == some 0

/-- The text `save_config` leaves in the file: every line read by `fgets` that
starts with the key is replaced by `key=value`, the other lines are copied, and
`key=value` is appended when no line was replaced. -/
def save_text (key value content : List Char) : List Char :=
  ((fgets_lines 256 content [] 255).map fun line =>
      if line_starts_with key line then config_line key value else line).flatten ++
    (if (fgets_lines 256 content [] 255).any (line_starts_with key) then []
      else config_line key value)

/-- `save_config`: nothing happens when `fopen(CONFIG_FILE, "r+")` or `tmpfile()`
fails. -/
def save_config (key value : String) (tmpfile_ok : Bool) (file : Option String) : Option String :=
  match file with
  | none => none
  | some content =>
    if tmpfile_ok then some (String.mk (save_text key.toList value.toList content.toList))
    else some content

/-- A `scanf` conversion of at most `width` characters satisfying `p`: the
characters converted and the rest of the input. -/
def scan_while (p : Char → Bool) : Nat → List Char → List Char × List Char
  | 0, cs => ([], cs)
  | _ + 1, [] => ([], [])
  | w + 1, c :: cs =>
    if p c then (c :: (scan_while p w cs).1, (scan_while p w cs).2) else ([], c :: cs)

/-- One `fscanf(file, "%49[^=]=%255s\n", file_key, file_value)`: `some` of the
key, the value and the rest of the input when it returns 2.  `%49[^=]` converts
up to 49 characters other than `=` (at least one), `%255s` skips white space
and converts up to 255 characters that are not white space (at least one), and
the final `\n` of the format skips white space. -/
def fscanf_entry (input : List Char) : Option (List Char × List Char × List Char) :=
  match scan_while (fun c => c != '=') 49 input with
  | ([], _) => none
  | (file_key, '=' :: rest) =>
    match scan_while (fun c => !isspace c) 255 (rest.dropWhile isspace) with
    | ([], _) => none
    | (file_value, rest') => some (file_key, file_value, rest'.dropWhile isspace)
  | _ => none

/-- The `while (fscanf(...) == 2)` loop of `load_config`: the value of the first
entry whose key equals `key`.  Every round consumes input, so `fuel` larger than
the length of the input is never used up. -/
def load_loop (key : List Char) : Nat → List Char → Option (List Char)
  | 0, _ => none
  | fuel + 1, input =>
    match fscanf_entry input with
    | none => none
    | some (file_key, file_value, rest) =>
      if file_key = key then some file_value else load_loop key fuel rest

/-- `load_config`: the default value, replaced by the value found in the file. -/
def load_config (key default_value : String) (file : Option String) : String :=
  match file with
  | none => default_value
  | some content =>
    match load_loop key.toList (content.length + 1) content.toList with
    | some file_value => String.mk file_value
    | none => default_value

/-! ## Statement helpers -/

/-- The eight frequency strings tested by `change_mode`. -/
def lsb_table : List String :=
  ["1997", "3625", "3643", "3693", "3697", "3850", "7177", "7197"]

/-- The five commands of `change_frequency` in the order the code sends them. -/
def change_frequency_commands (frequency : String) : List String :=
  ["f " ++ frequency, change_mode_command frequency, "PITCH 1500", "LOW 900", "HIGH 2100"]

/-- Each command sent on `sockfd_telnet` and followed by the 200 ms `nanosleep`. -/
def paced : List String → List Event
  | [] => []
  | c :: cs => Event.send_telnet c :: Event.nanosleep 0 200000000 :: paced cs

/-- The effects of stopping the opposing pipeline `pid`, preceded by the drain
delay `delay`, when the stop is not fatal: nothing for an inactive pid. -/
def stop_events (delay : List Event) (pid : Int) (store : Event) : List Event :=
  if 0 < pid then delay ++ [Event.killpg pid SIGTERM, store] else []

/-- The effects that end a button callback in the parent: the failed control
command is followed by `exit`, the successful one by the notification. -/
def control_events (env : Env) (command note : String) (s : State) : List Event :=
  Event.send_server command ::
    (if env.send_ret 0 < 0 then [Event.exit EXIT_FAILURE] else (send_ipc_command env note s).trace)

/-- An environment in which `fork` fails and every other system call succeeds. -/
def env_fork_fails : Env :=
  { env_ok 0 with fork_ret := -1 }

/-- An environment in which the `n`-th `send` of the callback fails and every
other system call succeeds. -/
def env_send_fails_at (n : Nat) : Env :=
  { env_ok 60 with send_ret := fun i => if i = n then -1 else 1 }

/-- An environment in which `killpg` fails with the given `errno` and every
other system call succeeds. -/
def env_killpg_fails (pid : Int) (errno : Nat) : Env :=
  { env_ok pid with killpg_ret := fun _ => -1, killpg_errno := fun _ => errno }

/-- The environment `env` with other results for the three system calls that
`send_ipc_command` checks. -/
def with_ipc_results (env : Env) (socket_ret inet_pton_ret connect_ret : Int) : Env :=
  { env with ipc_socket_ret := socket_ret, ipc_inet_pton_ret := inet_pton_ret,
             ipc_connect_ret := connect_ret }

/-- The trace without the sends to the reporter bridge. -/
def without_ipc : List Event → List Event
  | [] => []
  | Event.ipc_send _ :: es => without_ipc es
  | e :: es => e :: without_ipc es

/-- Index of the first failing `send` among the first `n` of a callback, `n`
when none of them fails. -/
def first_failed_send (env : Env) : Nat → Nat
  | 0 => 0
  | n + 1 => if first_failed_send env n < n then first_failed_send env n
             else if env.send_ret n < 0 then n else n + 1

/-- The mode and the two pids agree: no mode and no pipeline, TX with only a
transmit pid, or RX with only a receive pid. -/
def mode_matches_handles (s : State) : Prop :=
  (s.rxtx_mode = -1 ∧ s.tx_pid = 0 ∧ s.rx_pid = 0) ∨
  (s.rxtx_mode = 0 ∧ 0 < s.tx_pid ∧ s.rx_pid = 0) ∨
  (s.rxtx_mode = 1 ∧ 0 < s.rx_pid ∧ s.tx_pid = 0)

/-- A key that `%49[^=]` reads back whole: not empty, at most 49 bytes, without
`=` and without white space. -/
def key_ok (key : String) : Bool :=
  !key.toList.isEmpty && decide (key.toList.length ≤ 49) &&
    key.toList.all fun c => c != '=' && !isspace c

/-- A value that `%255s` reads back whole: not empty, at most 255 bytes, without
white space. -/
def value_ok (value : String) : Bool :=
  !value.toList.isEmpty && decide (value.toList.length ≤ 255) &&
    value.toList.all fun c => !isspace c

/-- An entry whose key and value are read back whole and whose line
`key=value\n` fits the 256-byte buffer of `fgets`. -/
def entry_ok (e : String × String) : Bool :=
  key_ok e.1 && value_ok e.2 && decide (e.1.toList.length + e.2.toList.length + 2 ≤ 255)

/-- The lines `key=value\n` of the entries, in order. -/
def render_entries (es : List (String × String)) : List Char :=
  (es.map fun e => config_line e.1.toList e.2.toList).flatten

/-- A store that starts with the lines of `es` and goes on with the text `tail`. -/
def store_text (es : List (String × String)) (tail : String) : String :=
  String.mk (render_entries es ++ tail.toList)

/-- The entries after `save_config key value`: an entry whose line starts with
the key is replaced. -/
def update_entries (key value : String) (es : List (String × String)) : List (String × String) :=
  es.map fun e => if line_starts_with key.toList (config_line e.1.toList e.2.toList) then (key, value) else e

/-- The first six entries of the default configuration: the lines before the
`version` line, whose value contains blanks. -/
def default_entries : List (String × String) :=
  [("fdvmode", "700D"), ("callsign", "N0CALL"), ("grid_square", "AA00ab"),
   ("squelch_level", "-5"), ("input_level", "1"), ("start_mode", "-1")]

/-- The last two lines of the default configuration. -/
def default_tail : String :=
  "version=sBitx fdv_ptt 2.4.6a\n" ++ "message=--\n"

/-! ## Sequencing lemmas -/

theorem Outcome.andThen_mk_running (s : State) (tr : List Event) (k : State → Outcome) :
    (Outcome.mk s tr Status.running).andThen k = (k s).after tr := rfl

theorem Outcome.andThen_of_stopped (o : Outcome) (k : State → Outcome)
    (h : o.status ≠ Status.running) : o.andThen k = o := by
  unfold Outcome.andThen
  split
  · contradiction
  · rfl

theorem Outcome.andThen_mk_exited (s : State) (tr : List Event) (c : Nat) (k : State → Outcome) :
    (Outcome.mk s tr (Status.exited c)).andThen k = Outcome.mk s tr (Status.exited c) := rfl

theorem Outcome.andThen_mk_overflow (s : State) (tr : List Event) (k : State → Outcome) :
    (Outcome.mk s tr Status.overflow).andThen k = Outcome.mk s tr Status.overflow := rfl

theorem Outcome.after_mk (s : State) (t tr : List Event) (st : Status) :
    (Outcome.mk s t st).after tr = Outcome.mk s (tr ++ t) st := rfl

theorem Outcome.after_after (o : Outcome) (t tr : List Event) :
    (o.after t).after tr = o.after (tr ++ t) := by
  simp [Outcome.after]

theorem Outcome.after_state (o : Outcome) (tr : List Event) : (o.after tr).state = o.state := rfl

theorem Outcome.after_status (o : Outcome) (tr : List Event) : (o.after tr).status = o.status := rfl

theorem Outcome.after_trace (o : Outcome) (tr : List Event) : (o.after tr).trace = tr ++ o.trace := rfl

/-! ## The building blocks of the callbacks -/

theorem pipeline_child_stopped (env : Env) (text : String) (s : State) :
    (pipeline_child env text s).status ≠ Status.running := by
  unfold pipeline_child
  split
  · simp
  · split
    · simp
    · split <;> simp

theorem pipeline_child_state (env : Env) (text : String) (s : State) :
    (pipeline_child env text s).state = s := by
  unfold pipeline_child
  split
  · simp
  · split
    · simp
    · split <;> simp

theorem pipeline_child_trace (env : Env) (text : String) (s : State) (e : Event)
    (he : e ∈ (pipeline_child env text s).trace) :
    e = Event.setpgid 0 0 ∨ e = Event.exit EXIT_FAILURE ∨ ∃ cmd, e = Event.execl "/bin/sh" ["sh", "-c", cmd] := by
  unfold pipeline_child at he
  split at he
  · simp at he; tauto
  · split at he
    · simp at he; tauto
    · split at he
      · simp at he
        rcases he with h | h
        · exact Or.inl h
        · exact Or.inr (Or.inr ⟨_, h⟩)
      · simp at he
        rcases he with h | h | h
        · exact Or.inl h
        · exact Or.inr (Or.inr ⟨_, h⟩)
        · exact Or.inr (Or.inl h)

theorem send_ipc_command_state (env : Env) (command : String) (s : State) :
    (send_ipc_command env command s).state = s := by
  unfold send_ipc_command
  split_ifs <;> rfl

theorem send_ipc_command_status (env : Env) (command : String) (s : State) :
    (send_ipc_command env command s).status = Status.running := by
  unfold send_ipc_command
  split_ifs <;> rfl

theorem send_ipc_command_trace (env : Env) (command : String) (s : State) :
    (send_ipc_command env command s).trace = [] ∨
      (send_ipc_command env command s).trace = [Event.ipc_send command] := by
  unfold send_ipc_command
  split_ifs <;> simp

/-- The end of both button callbacks: the control command, then the notification. -/
theorem control_then_notify (env : Env) (i : Nat) (command note : String) (s : State) :
    (send_command env i command s).andThen (send_ipc_command env note) =
      if env.send_ret i < 0 then
        Outcome.mk s [Event.send_server command, Event.exit EXIT_FAILURE] (Status.exited EXIT_FAILURE)
      else
        Outcome.mk s (Event.send_server command :: (send_ipc_command env note s).trace) Status.running := by
  unfold send_command
  split
  · rfl
  · rw [Outcome.andThen_mk_running]
    simp [Outcome.after, send_ipc_command_state, send_ipc_command_status]

/-! ## The paths through `on_tx_button_clicked` and `on_rx_button_clicked` -/

theorem on_tx_noop (env : Env) (s : State) (hm : s.rxtx_mode = 0) :
    on_tx_button_clicked env s = Outcome.mk s [] Status.running := by
  simp [on_tx_button_clicked, hm]

theorem on_tx_fatal (env : Env) (s : State) (hm : s.rxtx_mode ≠ 0) (hp : 0 < s.rx_pid)
    (hk : env.killpg_ret 0 = -1 ∧ env.killpg_errno 0 ≠ ESRCH) :
    on_tx_button_clicked env s =
      Outcome.mk s [Event.killpg s.rx_pid SIGTERM, Event.exit EXIT_FAILURE] (Status.exited EXIT_FAILURE) := by
  simp [on_tx_button_clicked, hm, hp, hk, Outcome.andThen_mk_exited]

theorem on_tx_parent_stop (env : Env) (s : State) (hm : s.rxtx_mode ≠ 0) (hp : 0 < s.rx_pid)
    (hk : ¬ (env.killpg_ret 0 = -1 ∧ env.killpg_errno 0 ≠ ESRCH)) (hf : env.fork_ret ≠ 0) :
    on_tx_button_clicked env s =
      ((send_command env 0 "T 1\n"
          { rxtx_mode := 0, tx_pid := env.fork_ret, rx_pid := 0, python_pid := s.python_pid }).andThen
        (send_ipc_command env "TX_ON")).after
        [Event.killpg s.rx_pid SIGTERM, Event.store_rx_pid 0, Event.fork,
          Event.store_tx_pid env.fork_ret, Event.store_rxtx_mode 0] := by
  simp only [on_tx_button_clicked, hm, hp, hk, hf, Outcome.andThen_mk_running, ne_eq,
    not_false_eq_true, if_true, if_false, Outcome.after_after, Outcome.after_mk]
  simp

theorem on_tx_parent_idle (env : Env) (s : State) (hm : s.rxtx_mode ≠ 0) (hp : ¬ 0 < s.rx_pid)
    (hf : env.fork_ret ≠ 0) :
    on_tx_button_clicked env s =
      ((send_command env 0 "T 1\n"
          { rxtx_mode := 0, tx_pid := env.fork_ret, rx_pid := s.rx_pid, python_pid := s.python_pid }).andThen
        (send_ipc_command env "TX_ON")).after
        [Event.fork, Event.store_tx_pid env.fork_ret, Event.store_rxtx_mode 0] := by
  simp only [on_tx_button_clicked, hm, hp, hf, Outcome.andThen_mk_running, ne_eq,
    not_false_eq_true, if_true, if_false, Outcome.after_after, Outcome.after_mk]
  simp

theorem on_tx_child_stop (env : Env) (s : State) (hm : s.rxtx_mode ≠ 0) (hp : 0 < s.rx_pid)
    (hk : ¬ (env.killpg_ret 0 = -1 ∧ env.killpg_errno 0 ≠ ESRCH)) (hf : env.fork_ret = 0) :
    on_tx_button_clicked env s =
      (pipeline_child env (tx_command_text env)
          { rxtx_mode := s.rxtx_mode, tx_pid := 0, rx_pid := 0, python_pid := s.python_pid }).after
        [Event.killpg s.rx_pid SIGTERM, Event.store_rx_pid 0, Event.fork, Event.store_tx_pid 0] := by
  simp only [on_tx_button_clicked, hm, hp, hk, hf, Outcome.andThen_mk_running, ne_eq,
    not_false_eq_true, if_true, if_false, Outcome.after_after, Outcome.after_mk,
    Outcome.andThen_of_stopped _ _ (pipeline_child_stopped _ _ _)]
  simp

theorem on_tx_child_idle (env : Env) (s : State) (hm : s.rxtx_mode ≠ 0) (hp : ¬ 0 < s.rx_pid)
    (hf : env.fork_ret = 0) :
    on_tx_button_clicked env s =
      (pipeline_child env (tx_command_text env)
          { rxtx_mode := s.rxtx_mode, tx_pid := 0, rx_pid := s.rx_pid, python_pid := s.python_pid }).after
        [Event.fork, Event.store_tx_pid 0] := by
  simp only [on_tx_button_clicked, hm, hp, hf, Outcome.andThen_mk_running, ne_eq,
    not_false_eq_true, if_true, if_false, Outcome.after_after, Outcome.after_mk,
    Outcome.andThen_of_stopped _ _ (pipeline_child_stopped _ _ _)]
  simp

theorem on_rx_noop (env : Env) (s : State) (hm : s.rxtx_mode = 1) :
    on_rx_button_clicked env s = Outcome.mk s [] Status.running := by
  simp [on_rx_button_clicked, hm]

theorem on_rx_fatal (env : Env) (s : State) (hm : s.rxtx_mode ≠ 1) (hp : 0 < s.tx_pid)
    (hk : env.killpg_ret 0 = -1 ∧ env.killpg_errno 0 ≠ ESRCH) :
    on_rx_button_clicked env s =
      Outcome.mk s [Event.usleep 1500000, Event.killpg s.tx_pid SIGTERM, Event.exit EXIT_FAILURE]
        (Status.exited EXIT_FAILURE) := by
  simp [on_rx_button_clicked, hm, hp, hk, Outcome.andThen_mk_exited]

theorem on_rx_parent_stop (env : Env) (s : State) (hm : s.rxtx_mode ≠ 1) (hp : 0 < s.tx_pid)
    (hk : ¬ (env.killpg_ret 0 = -1 ∧ env.killpg_errno 0 ≠ ESRCH)) (hf : env.fork_ret ≠ 0) :
    on_rx_button_clicked env s =
      ((send_command env 0 "T 0\n"
          { rxtx_mode := 1, tx_pid := 0, rx_pid := env.fork_ret, python_pid := s.python_pid }).andThen
        (send_ipc_command env "TX_OFF")).after
        [Event.usleep 1500000, Event.killpg s.tx_pid SIGTERM, Event.store_tx_pid 0, Event.fork,
          Event.store_rx_pid env.fork_ret, Event.store_rxtx_mode 1] := by
  simp only [on_rx_button_clicked, hm, hp, hk, hf, Outcome.andThen_mk_running, ne_eq,
    not_false_eq_true, if_true, if_false, Outcome.after_after, Outcome.after_mk]
  simp

theorem on_rx_parent_idle (env : Env) (s : State) (hm : s.rxtx_mode ≠ 1) (hp : ¬ 0 < s.tx_pid)
    (hf : env.fork_ret ≠ 0) :
    on_rx_button_clicked env s =
      ((send_command env 0 "T 0\n"
          { rxtx_mode := 1, tx_pid := s.tx_pid, rx_pid := env.fork_ret, python_pid := s.python_pid }).andThen
        (send_ipc_command env "TX_OFF")).after
        [Event.fork, Event.store_rx_pid env.fork_ret, Event.store_rxtx_mode 1] := by
  simp only [on_rx_button_clicked, hm, hp, hf, Outcome.andThen_mk_running, ne_eq,
    not_false_eq_true, if_true, if_false, Outcome.after_after, Outcome.after_mk]
  simp

theorem on_rx_child_stop (env : Env) (s : State) (hm : s.rxtx_mode ≠ 1) (hp : 0 < s.tx_pid)
    (hk : ¬ (env.killpg_ret 0 = -1 ∧ env.killpg_errno 0 ≠ ESRCH)) (hf : env.fork_ret = 0) :
    on_rx_button_clicked env s =
      (pipeline_child env (rx_command_text env)
          { rxtx_mode := s.rxtx_mode, tx_pid := 0, rx_pid := 0, python_pid := s.python_pid }).after
        [Event.usleep 1500000, Event.killpg s.tx_pid SIGTERM, Event.store_tx_pid 0, Event.fork,
          Event.store_rx_pid 0] := by
  simp only [on_rx_button_clicked, hm, hp, hk, hf, Outcome.andThen_mk_running, ne_eq,
    not_false_eq_true, if_true, if_false, Outcome.after_after, Outcome.after_mk,
    Outcome.andThen_of_stopped _ _ (pipeline_child_stopped _ _ _)]
  simp

theorem on_rx_child_idle (env : Env) (s : State) (hm : s.rxtx_mode ≠ 1) (hp : ¬ 0 < s.tx_pid)
    (hf : env.fork_ret = 0) :
    on_rx_button_clicked env s =
      (pipeline_child env (rx_command_text env)
          { rxtx_mode := s.rxtx_mode, tx_pid := s.tx_pid, rx_pid := 0, python_pid := s.python_pid }).after
        [Event.fork, Event.store_rx_pid 0] := by
  simp only [on_rx_button_clicked, hm, hp, hf, Outcome.andThen_mk_running, ne_eq,
    not_false_eq_true, if_true, if_false, Outcome.after_after, Outcome.after_mk,
    Outcome.andThen_of_stopped _ _ (pipeline_child_stopped _ _ _)]
  simp

theorem control_then_notify_state (env : Env) (i : Nat) (command note : String) (s : State) :
    ((send_command env i command s).andThen (send_ipc_command env note)).state = s := by
  rw [control_then_notify]
  split <;> rfl

theorem control_then_notify_trace (env : Env) (i : Nat) (command note : String) (s : State)
    (e : Event)
    (he : e ∈ ((send_command env i command s).andThen (send_ipc_command env note)).trace) :
    e = Event.send_server command ∨ e = Event.exit EXIT_FAILURE ∨ e = Event.ipc_send note := by
  rw [control_then_notify] at he
  split at he
  · simp at he; tauto
  · rcases send_ipc_command_trace env note s with h | h
    · rw [h] at he; simp at he; tauto
    · rw [h] at he; simp at he; tauto

theorem on_tx_keeps_exclusion (env : Env) (s : State)
    (h : ¬ (0 < s.tx_pid ∧ 0 < s.rx_pid)) :
    ¬ (0 < (on_tx_button_clicked env s).state.tx_pid ∧
        0 < (on_tx_button_clicked env s).state.rx_pid) := by
  by_cases hm : s.rxtx_mode = 0
  · rw [on_tx_noop env s hm]; exact h
  · by_cases hp : 0 < s.rx_pid
    · by_cases hk : env.killpg_ret 0 = -1 ∧ env.killpg_errno 0 ≠ ESRCH
      · rw [on_tx_fatal env s hm hp hk]; exact h
      · by_cases hf : env.fork_ret = 0
        · rw [on_tx_child_stop env s hm hp hk hf]
          simp [Outcome.after_state, pipeline_child_state]
        · rw [on_tx_parent_stop env s hm hp hk hf]
          simp [Outcome.after_state, control_then_notify_state]
    · by_cases hf : env.fork_ret = 0
      · rw [on_tx_child_idle env s hm hp hf]
        simp [Outcome.after_state, pipeline_child_state]
      · rw [on_tx_parent_idle env s hm hp hf]
        simp only [Outcome.after_state, control_then_notify_state]
        exact fun hh => hp hh.2

theorem on_rx_keeps_exclusion (env : Env) (s : State)
    (h : ¬ (0 < s.tx_pid ∧ 0 < s.rx_pid)) :
    ¬ (0 < (on_rx_button_clicked env s).state.tx_pid ∧
        0 < (on_rx_button_clicked env s).state.rx_pid) := by
  by_cases hm : s.rxtx_mode = 1
  · rw [on_rx_noop env s hm]; exact h
  · by_cases hp : 0 < s.tx_pid
    · by_cases hk : env.killpg_ret 0 = -1 ∧ env.killpg_errno 0 ≠ ESRCH
      · rw [on_rx_fatal env s hm hp hk]; exact h
      · by_cases hf : env.fork_ret = 0
        · rw [on_rx_child_stop env s hm hp hk hf]
          simp [Outcome.after_state, pipeline_child_state]
        · rw [on_rx_parent_stop env s hm hp hk hf]
          simp [Outcome.after_state, control_then_notify_state]
    · by_cases hf : env.fork_ret = 0
      · rw [on_rx_child_idle env s hm hp hf]
        simp [Outcome.after_state, pipeline_child_state]
      · rw [on_rx_parent_idle env s hm hp hf]
        simp only [Outcome.after_state, control_then_notify_state]
        exact fun hh => hp hh.1

theorem run_clicks_keeps_exclusion (clicks : List (Request × Env)) :
    ∀ s : State, ¬ (0 < s.tx_pid ∧ 0 < s.rx_pid) →
      ¬ (0 < (run_clicks clicks s).state.tx_pid ∧ 0 < (run_clicks clicks s).state.rx_pid) := by
  induction clicks with
  | nil => intro s h; simpa [run_clicks] using h
  | cons c rest ih =>
    intro s h
    obtain ⟨r, env⟩ := c
    have hstep : ¬ (0 < (handle r env s).state.tx_pid ∧ 0 < (handle r env s).state.rx_pid) := by
      cases r
      · exact on_tx_keeps_exclusion env s h
      · exact on_rx_keeps_exclusion env s h
    simp only [run_clicks, Outcome.andThen]
    split
    · exact ih _ hstep
    · exact hstep

theorem on_tx_spawn_after_stop (env : Env) (s : State) (hp : 0 < s.rx_pid)
    (hfork : Event.fork ∈ (on_tx_button_clicked env s).trace) :
    ∃ rest, (on_tx_button_clicked env s).trace =
        Event.killpg s.rx_pid SIGTERM :: Event.store_rx_pid 0 :: Event.fork :: rest ∧
      Event.fork ∉ rest := by
  by_cases hm : s.rxtx_mode = 0
  · rw [on_tx_noop env s hm] at hfork; simp at hfork
  · by_cases hk : env.killpg_ret 0 = -1 ∧ env.killpg_errno 0 ≠ ESRCH
    · rw [on_tx_fatal env s hm hp hk] at hfork; simp at hfork
    · by_cases hf : env.fork_ret = 0
      · rw [on_tx_child_stop env s hm hp hk hf]
        simp only [Outcome.after_trace, List.cons_append, List.nil_append]
        refine ⟨_, rfl, ?_⟩
        · intro hmem
          simp only [List.mem_cons] at hmem
          rcases hmem with h | h
          · cases h
          · rcases pipeline_child_trace _ _ _ _ h with h1 | h1 | ⟨_, h1⟩ <;> cases h1
      · rw [on_tx_parent_stop env s hm hp hk hf]
        simp only [Outcome.after_trace, List.cons_append, List.nil_append]
        refine ⟨_, rfl, ?_⟩
        · intro hmem
          simp only [List.mem_cons] at hmem
          rcases hmem with h | h | h
          · cases h
          · cases h
          · rcases control_then_notify_trace _ _ _ _ _ _ h with h1 | h1 | h1 <;> cases h1

theorem on_rx_spawn_after_stop (env : Env) (s : State) (hp : 0 < s.tx_pid)
    (hfork : Event.fork ∈ (on_rx_button_clicked env s).trace) :
    ∃ rest, (on_rx_button_clicked env s).trace =
        Event.usleep 1500000 :: Event.killpg s.tx_pid SIGTERM :: Event.store_tx_pid 0 ::
          Event.fork :: rest ∧
      Event.fork ∉ rest := by
  by_cases hm : s.rxtx_mode = 1
  · rw [on_rx_noop env s hm] at hfork; simp at hfork
  · by_cases hk : env.killpg_ret 0 = -1 ∧ env.killpg_errno 0 ≠ ESRCH
    · rw [on_rx_fatal env s hm hp hk] at hfork; simp at hfork
    · by_cases hf : env.fork_ret = 0
      · rw [on_rx_child_stop env s hm hp hk hf]
        simp only [Outcome.after_trace, List.cons_append, List.nil_append]
        refine ⟨_, rfl, ?_⟩
        · intro hmem
          simp only [List.mem_cons] at hmem
          rcases hmem with h | h
          · cases h
          · rcases pipeline_child_trace _ _ _ _ h with h1 | h1 | ⟨_, h1⟩ <;> cases h1
      · rw [on_rx_parent_stop env s hm hp hk hf]
        simp only [Outcome.after_trace, List.cons_append, List.nil_append]
        refine ⟨_, rfl, ?_⟩
        · intro hmem
          simp only [List.mem_cons] at hmem
          rcases hmem with h | h | h
          · cases h
          · cases h
          · rcases control_then_notify_trace _ _ _ _ _ _ h with h1 | h1 | h1 <;> cases h1

theorem count_fork_of_split (tr pre rest : List Event) (h : tr = pre ++ Event.fork :: rest)
    (hpre : Event.fork ∉ pre) (hrest : Event.fork ∉ rest) : tr.count Event.fork = 1 := by
  subst h
  rw [List.count_append, List.count_cons_self, List.count_eq_zero.mpr hpre,
    List.count_eq_zero.mpr hrest]

/-! ## C strings and the telnet command sequence -/

theorem utf8ByteSize_append (a b : String) :
    (a ++ b).utf8ByteSize = a.utf8ByteSize + b.utf8ByteSize := by
  show String.utf8Len (a ++ b).data = String.utf8Len a.data + String.utf8Len b.data
  rw [String.data_append, String.utf8Len_append]
  
theorem strstr_at_isSome (needle : List Char) (hay : List Char) (i : Nat) :
    (strstr_at needle hay i).isSome ↔ needle <:+: hay := by
  induction hay generalizing i with
  | nil =>
    simp [strstr_at, List.isPrefixOf_iff_prefix]
  | cons c cs ih =>
    rw [strstr_at, List.infix_cons_iff]
    by_cases hp : needle.isPrefixOf (c :: cs) = true
    · simp only [hp, if_true, Option.isSome_some, true_iff]
      exact Or.inl (List.isPrefixOf_iff_prefix.mp hp)
    · simp only [hp, Bool.false_eq_true, if_false, ih]
      constructor
      · exact fun h => Or.inr h
      · rintro (h | h)
        · exact absurd (List.isPrefixOf_iff_prefix.mpr h) hp
        · exact h

theorem strstr_isSome (haystack needle : String) :
    (strstr haystack needle).isSome ↔ needle.toList <:+: haystack.toList :=
  strstr_at_isSome _ _ _

theorem change_mode_command_cases (frequency : String) :
    change_mode_command frequency = "m LSB" ∨ change_mode_command frequency = "m DIGITAL" := by
  unfold change_mode_command
  split
  · exact Or.inl rfl
  · exact Or.inr rfl

theorem sprintf_mode_command (frequency : String) :
    sprintf_into 20 (change_mode_command frequency) = some (change_mode_command frequency) := by
  rcases change_mode_command_cases frequency with h | h <;> rw [h] <;> decide

theorem change_mode_eq (env : Env) (i : Nat) (frequency : String) (s : State) :
    change_mode env i frequency s =
      if env.send_ret i < 0 then
        Outcome.mk s [Event.send_telnet (change_mode_command frequency), Event.exit EXIT_FAILURE]
          (Status.exited EXIT_FAILURE)
      else
        Outcome.mk s [Event.send_telnet (change_mode_command frequency), Event.nanosleep 0 200000000]
          Status.running := by
  simp only [change_mode, sprintf_mode_command]

theorem sprintf_frequency (frequency : String) (hfit : frequency.utf8ByteSize ≤ 17) :
    sprintf_into 20 ("f " ++ frequency) = some ("f " ++ frequency) := by
  have h2 : ("f " : String).utf8ByteSize = 2 := by decide
  unfold sprintf_into
  rw [utf8ByteSize_append, h2, if_pos (by omega)]

theorem change_frequency_all_sent (env : Env) (frequency : String) (s : State)
    (hfit : frequency.utf8ByteSize ≤ 17) (hsend : ∀ i, i < 5 → 0 ≤ env.send_ret i) :
    change_frequency env frequency s =
      Outcome.mk s (paced (change_frequency_commands frequency)) Status.running := by
  have h0 : ¬ env.send_ret 0 < 0 := not_lt.mpr (hsend 0 (by decide))
  have h1 : ¬ env.send_ret 1 < 0 := not_lt.mpr (hsend 1 (by decide))
  have h2 : ¬ env.send_ret 2 < 0 := not_lt.mpr (hsend 2 (by decide))
  have h3 : ¬ env.send_ret 3 < 0 := not_lt.mpr (hsend 3 (by decide))
  have h4 : ¬ env.send_ret 4 < 0 := not_lt.mpr (hsend 4 (by decide))
  simp only [change_frequency, sprintf_frequency frequency hfit, send_telnet_paced, change_mode_eq,
    h0, h1, h2, h3, h4, if_false, Outcome.andThen_mk_running, Outcome.after_mk,
    change_frequency_commands, paced]
  rfl

theorem change_frequency_failed_send (env : Env) (frequency : String) (s : State) (i : Nat)
    (hfit : frequency.utf8ByteSize ≤ 17) (hi : i < 5)
    (hprev : ∀ j, j < i → 0 ≤ env.send_ret j) (hfail : env.send_ret i < 0) :
    change_frequency env frequency s =
      Outcome.mk s
        (paced ((change_frequency_commands frequency).take i) ++
          (((change_frequency_commands frequency).drop i).take 1).map Event.send_telnet ++
          [Event.exit EXIT_FAILURE])
        (Status.exited EXIT_FAILURE) := by
  interval_cases i
  · simp only [change_frequency, sprintf_frequency frequency hfit, send_telnet_paced, hfail,
      if_true, Outcome.andThen_mk_exited, change_frequency_commands, paced]
    rfl
  · have h0 : ¬ env.send_ret 0 < 0 := not_lt.mpr (hprev 0 (by decide))
    simp only [change_frequency, sprintf_frequency frequency hfit, send_telnet_paced,
      change_mode_eq, h0, hfail, if_true, if_false, Outcome.andThen_mk_running,
      Outcome.andThen_mk_exited, Outcome.after_mk, change_frequency_commands, paced]
    rfl
  · have h0 : ¬ env.send_ret 0 < 0 := not_lt.mpr (hprev 0 (by decide))
    have h1 : ¬ env.send_ret 1 < 0 := not_lt.mpr (hprev 1 (by decide))
    simp only [change_frequency, sprintf_frequency frequency hfit, send_telnet_paced,
      change_mode_eq, h0, h1, hfail, if_true, if_false, Outcome.andThen_mk_running,
      Outcome.andThen_mk_exited, Outcome.after_mk, change_frequency_commands, paced]
    rfl
  · have h0 : ¬ env.send_ret 0 < 0 := not_lt.mpr (hprev 0 (by decide))
    have h1 : ¬ env.send_ret 1 < 0 := not_lt.mpr (hprev 1 (by decide))
    have h2 : ¬ env.send_ret 2 < 0 := not_lt.mpr (hprev 2 (by decide))
    simp only [change_frequency, sprintf_frequency frequency hfit, send_telnet_paced,
      change_mode_eq, h0, h1, h2, hfail, if_true, if_false, Outcome.andThen_mk_running,
      Outcome.andThen_mk_exited, Outcome.after_mk, change_frequency_commands, paced]
    rfl
  · have h0 : ¬ env.send_ret 0 < 0 := not_lt.mpr (hprev 0 (by decide))
    have h1 : ¬ env.send_ret 1 < 0 := not_lt.mpr (hprev 1 (by decide))
    have h2 : ¬ env.send_ret 2 < 0 := not_lt.mpr (hprev 2 (by decide))
    have h3 : ¬ env.send_ret 3 < 0 := not_lt.mpr (hprev 3 (by decide))
    simp only [change_frequency, sprintf_frequency frequency hfit, send_telnet_paced,
      change_mode_eq, h0, h1, h2, h3, hfail, if_true, if_false, Outcome.andThen_mk_running,
      Outcome.andThen_mk_exited, Outcome.after_mk, change_frequency_commands, paced]
    rfl

theorem telnet_sends_append (a b : List Event) :
    telnet_sends (a ++ b) = telnet_sends a ++ telnet_sends b := by
  induction a with
  | nil => rfl
  | cons e es ih => cases e <;> simp [telnet_sends, ih]

theorem telnet_sends_paced (cs : List String) : telnet_sends (paced cs) = cs := by
  induction cs with
  | nil => rfl
  | cons c cs ih => simp [paced, telnet_sends, ih]

theorem server_sends_paced (cs : List String) : server_sends (paced cs) = [] := by
  induction cs with
  | nil => rfl
  | cons c cs ih => simp [paced, server_sends, ih]

theorem telnet_sends_map (cs : List String) :
    telnet_sends (cs.map Event.send_telnet) = cs := by
  induction cs with
  | nil => rfl
  | cons c cs ih => simp [telnet_sends, ih]

/-! ## Normal forms of the parent paths -/

theorem server_sends_append (a b : List Event) :
    server_sends (a ++ b) = server_sends a ++ server_sends b := by
  induction a with
  | nil => rfl
  | cons e es ih => cases e <;> simp [server_sends, ih]

theorem send_ipc_command_sends (env : Env) (command : String) (s : State) :
    server_sends (send_ipc_command env command s).trace = [] ∧
    telnet_sends (send_ipc_command env command s).trace = [] := by
  rcases send_ipc_command_trace env command s with h | h <;> rw [h] <;> exact ⟨rfl, rfl⟩

theorem on_tx_parent (env : Env) (s : State) (hm : s.rxtx_mode ≠ 0)
    (hstop : ¬ (0 < s.rx_pid ∧ env.killpg_ret 0 = -1 ∧ env.killpg_errno 0 ≠ ESRCH))
    (hf : env.fork_ret ≠ 0) :
    on_tx_button_clicked env s =
      Outcome.mk
        { rxtx_mode := 0, tx_pid := env.fork_ret, rx_pid := if 0 < s.rx_pid then 0 else s.rx_pid,
          python_pid := s.python_pid }
        (stop_events [] s.rx_pid (Event.store_rx_pid 0) ++
          [Event.fork, Event.store_tx_pid env.fork_ret, Event.store_rxtx_mode 0] ++
          control_events env "T 1\n" "TX_ON" s)
        (if env.send_ret 0 < 0 then Status.exited EXIT_FAILURE else Status.running) := by
  have hipc : ∀ s1 s2 : State, (send_ipc_command env "TX_ON" s1).trace
      = (send_ipc_command env "TX_ON" s2).trace := by
    intro s1 s2; unfold send_ipc_command; split_ifs <;> rfl
  by_cases hp : 0 < s.rx_pid
  · have hk : ¬ (env.killpg_ret 0 = -1 ∧ env.killpg_errno 0 ≠ ESRCH) := fun h => hstop ⟨hp, h⟩
    rw [on_tx_parent_stop env s hm hp hk hf, control_then_notify]
    simp only [stop_events, control_events, hp, if_true]
    split
    · rfl
    · simp only [Outcome.after_mk, List.nil_append, List.cons_append, List.append_assoc]
      rw [hipc _ s]
  · rw [on_tx_parent_idle env s hm hp hf, control_then_notify]
    simp only [stop_events, control_events, hp, if_false]
    split
    · rfl
    · simp only [Outcome.after_mk, List.nil_append, List.cons_append, List.append_assoc]
      rw [hipc _ s]

theorem on_rx_parent (env : Env) (s : State) (hm : s.rxtx_mode ≠ 1)
    (hstop : ¬ (0 < s.tx_pid ∧ env.killpg_ret 0 = -1 ∧ env.killpg_errno 0 ≠ ESRCH))
    (hf : env.fork_ret ≠ 0) :
    on_rx_button_clicked env s =
      Outcome.mk
        { rxtx_mode := 1, tx_pid := if 0 < s.tx_pid then 0 else s.tx_pid, rx_pid := env.fork_ret,
          python_pid := s.python_pid }
        (stop_events [Event.usleep 1500000] s.tx_pid (Event.store_tx_pid 0) ++
          [Event.fork, Event.store_rx_pid env.fork_ret, Event.store_rxtx_mode 1] ++
          control_events env "T 0\n" "TX_OFF" s)
        (if env.send_ret 0 < 0 then Status.exited EXIT_FAILURE else Status.running) := by
  have hipc : ∀ s1 s2 : State, (send_ipc_command env "TX_OFF" s1).trace
      = (send_ipc_command env "TX_OFF" s2).trace := by
    intro s1 s2; unfold send_ipc_command; split_ifs <;> rfl
  by_cases hp : 0 < s.tx_pid
  · have hk : ¬ (env.killpg_ret 0 = -1 ∧ env.killpg_errno 0 ≠ ESRCH) := fun h => hstop ⟨hp, h⟩
    rw [on_rx_parent_stop env s hm hp hk hf, control_then_notify]
    simp only [stop_events, control_events, hp, if_true]
    split
    · rfl
    · simp only [Outcome.after_mk, List.nil_append, List.cons_append, List.append_assoc]
      rw [hipc _ s]
  · rw [on_rx_parent_idle env s hm hp hf, control_then_notify]
    simp only [stop_events, control_events, hp, if_false]
    split
    · rfl
    · simp only [Outcome.after_mk, List.nil_append, List.cons_append, List.append_assoc]
      rw [hipc _ s]

theorem control_events_sends (env : Env) (command note : String) (s : State) :
    server_sends (control_events env command note s) = [command] ∧
    telnet_sends (control_events env command note s) = [] := by
  unfold control_events
  split
  · exact ⟨rfl, rfl⟩
  · simp [server_sends, telnet_sends, send_ipc_command_sends]

theorem stop_events_sends (delay : List Event) (pid v : Int) (hd : delay = [] ∨ delay = [Event.usleep 1500000]) :
    (server_sends (stop_events delay pid (Event.store_rx_pid v)) = [] ∧
      telnet_sends (stop_events delay pid (Event.store_rx_pid v)) = []) ∧
    (server_sends (stop_events delay pid (Event.store_tx_pid v)) = [] ∧
      telnet_sends (stop_events delay pid (Event.store_tx_pid v)) = []) := by
  unfold stop_events
  rcases hd with h | h <;> subst h <;> split <;> exact ⟨⟨rfl, rfl⟩, ⟨rfl, rfl⟩⟩

theorem on_tx_stop_shape (env : Env) (s : State) (hm : s.rxtx_mode ≠ 0) (hp : 0 < s.rx_pid) :
    ∃ rest, (on_tx_button_clicked env s).trace = Event.killpg s.rx_pid SIGTERM :: rest ∧
      ∀ us, Event.usleep us ∉ rest := by
  by_cases hk : env.killpg_ret 0 = -1 ∧ env.killpg_errno 0 ≠ ESRCH
  · rw [on_tx_fatal env s hm hp hk]
    exact ⟨_, rfl, by simp⟩
  · by_cases hf : env.fork_ret = 0
    · rw [on_tx_child_stop env s hm hp hk hf]
      simp only [Outcome.after_trace, List.cons_append, List.nil_append]
      refine ⟨_, rfl, ?_⟩
      intro us hmem
      simp only [List.mem_cons] at hmem
      rcases hmem with h | h | h | h
      · cases h
      · cases h
      · cases h
      · rcases pipeline_child_trace _ _ _ _ h with h1 | h1 | ⟨_, h1⟩ <;> cases h1
    · rw [on_tx_parent_stop env s hm hp hk hf]
      simp only [Outcome.after_trace, List.cons_append, List.nil_append]
      refine ⟨_, rfl, ?_⟩
      intro us hmem
      simp only [List.mem_cons] at hmem
      rcases hmem with h | h | h | h | h
      · cases h
      · cases h
      · cases h
      · cases h
      · rcases control_then_notify_trace _ _ _ _ _ _ h with h1 | h1 | h1 <;> cases h1

theorem on_rx_stop_shape (env : Env) (s : State) (hm : s.rxtx_mode ≠ 1) (hp : 0 < s.tx_pid) :
    ∃ rest, (on_rx_button_clicked env s).trace =
        Event.usleep 1500000 :: Event.killpg s.tx_pid SIGTERM :: rest ∧
      ∀ us, Event.usleep us ∉ rest := by
  by_cases hk : env.killpg_ret 0 = -1 ∧ env.killpg_errno 0 ≠ ESRCH
  · rw [on_rx_fatal env s hm hp hk]
    exact ⟨_, rfl, by simp⟩
  · by_cases hf : env.fork_ret = 0
    · rw [on_rx_child_stop env s hm hp hk hf]
      simp only [Outcome.after_trace, List.cons_append, List.nil_append]
      refine ⟨_, rfl, ?_⟩
      intro us hmem
      simp only [List.mem_cons] at hmem
      rcases hmem with h | h | h | h
      · cases h
      · cases h
      · cases h
      · rcases pipeline_child_trace _ _ _ _ h with h1 | h1 | ⟨_, h1⟩ <;> cases h1
    · rw [on_rx_parent_stop env s hm hp hk hf]
      simp only [Outcome.after_trace, List.cons_append, List.nil_append]
      refine ⟨_, rfl, ?_⟩
      intro us hmem
      simp only [List.mem_cons] at hmem
      rcases hmem with h | h | h | h | h
      · cases h
      · cases h
      · cases h
      · cases h
      · rcases control_then_notify_trace _ _ _ _ _ _ h with h1 | h1 | h1 <;> cases h1

/-! ## Frame lemmas for the notification and the frequency sequence -/

theorem without_ipc_append (a b : List Event) :
    without_ipc (a ++ b) = without_ipc a ++ without_ipc b := by
  induction a with
  | nil => rfl
  | cons e es ih => cases e <;> simp [without_ipc, ih]

theorem telnet_sends_without_ipc (tr : List Event) :
    telnet_sends (without_ipc tr) = telnet_sends tr := by
  induction tr with
  | nil => rfl
  | cons e es ih => cases e <;> simp [without_ipc, telnet_sends, ih]

theorem server_sends_without_ipc (tr : List Event) :
    server_sends (without_ipc tr) = server_sends tr := by
  induction tr with
  | nil => rfl
  | cons e es ih => cases e <;> simp [without_ipc, server_sends, ih]

theorem without_ipc_send_ipc_command (env : Env) (command : String) (s : State) :
    without_ipc (send_ipc_command env command s).trace = [] := by
  rcases send_ipc_command_trace env command s with h | h <;> rw [h] <;> rfl

theorem without_ipc_pipeline_child (env : Env) (text : String) (s : State) :
    without_ipc (pipeline_child env text s).trace = (pipeline_child env text s).trace := by
  unfold pipeline_child
  split
  · rfl
  · split
    · rfl
    · split <;> rfl

theorem without_ipc_control_events (env : Env) (command note : String) (s : State) :
    without_ipc (control_events env command note s) =
      Event.send_server command :: (if env.send_ret 0 < 0 then [Event.exit EXIT_FAILURE] else []) := by
  unfold control_events
  split
  · rfl
  · simp [without_ipc, without_ipc_send_ipc_command]

theorem without_ipc_stop_events (delay : List Event) (pid v : Int)
    (hd : delay = [] ∨ delay = [Event.usleep 1500000]) :
    without_ipc (stop_events delay pid (Event.store_rx_pid v))
        = stop_events delay pid (Event.store_rx_pid v) ∧
    without_ipc (stop_events delay pid (Event.store_tx_pid v))
        = stop_events delay pid (Event.store_tx_pid v) := by
  unfold stop_events
  rcases hd with h | h <;> subst h <;> split <;> exact ⟨rfl, rfl⟩

theorem tx_command_text_with_ipc (env : Env) (a b c : Int) :
    tx_command_text (with_ipc_results env a b c) = tx_command_text env := by
  simp only [tx_command_text, with_ipc_results]

theorem rx_command_text_with_ipc (env : Env) (a b c : Int) :
    rx_command_text (with_ipc_results env a b c) = rx_command_text env := by
  simp only [rx_command_text, with_ipc_results]

theorem pipeline_child_with_ipc (env : Env) (a b c : Int) (text : String) (s : State) :
    pipeline_child (with_ipc_results env a b c) text s = pipeline_child env text s := by
  simp only [pipeline_child, with_ipc_results]

theorem on_tx_ipc_frame (env : Env) (a b c : Int) (s : State) :
    (on_tx_button_clicked (with_ipc_results env a b c) s).status = (on_tx_button_clicked env s).status ∧
    (on_tx_button_clicked (with_ipc_results env a b c) s).state = (on_tx_button_clicked env s).state ∧
    without_ipc (on_tx_button_clicked (with_ipc_results env a b c) s).trace
      = without_ipc (on_tx_button_clicked env s).trace := by
  by_cases hm : s.rxtx_mode = 0
  · rw [on_tx_noop _ s hm, on_tx_noop _ s hm]
    exact ⟨rfl, rfl, rfl⟩
  · by_cases hstop : 0 < s.rx_pid ∧ env.killpg_ret 0 = -1 ∧ env.killpg_errno 0 ≠ ESRCH
    · rw [on_tx_fatal (with_ipc_results env a b c) s hm hstop.1 hstop.2,
        on_tx_fatal env s hm hstop.1 hstop.2]
      exact ⟨rfl, rfl, rfl⟩
    · by_cases hf : env.fork_ret = 0
      · by_cases hp : 0 < s.rx_pid
        · have hk : ¬ (env.killpg_ret 0 = -1 ∧ env.killpg_errno 0 ≠ ESRCH) := fun h => hstop ⟨hp, h⟩
          rw [on_tx_child_stop (with_ipc_results env a b c) s hm hp hk hf,
            on_tx_child_stop env s hm hp hk hf, tx_command_text_with_ipc,
            pipeline_child_with_ipc]
          exact ⟨rfl, rfl, rfl⟩
        · rw [on_tx_child_idle (with_ipc_results env a b c) s hm hp hf,
            on_tx_child_idle env s hm hp hf, tx_command_text_with_ipc,
            pipeline_child_with_ipc]
          exact ⟨rfl, rfl, rfl⟩
      · rw [on_tx_parent (with_ipc_results env a b c) s hm hstop hf, on_tx_parent env s hm hstop hf]
        refine ⟨rfl, rfl, ?_⟩
        simp only [without_ipc_append, without_ipc_control_events]
        rfl

theorem on_rx_ipc_frame (env : Env) (a b c : Int) (s : State) :
    (on_rx_button_clicked (with_ipc_results env a b c) s).status = (on_rx_button_clicked env s).status ∧
    (on_rx_button_clicked (with_ipc_results env a b c) s).state = (on_rx_button_clicked env s).state ∧
    without_ipc (on_rx_button_clicked (with_ipc_results env a b c) s).trace
      = without_ipc (on_rx_button_clicked env s).trace := by
  by_cases hm : s.rxtx_mode = 1
  · rw [on_rx_noop _ s hm, on_rx_noop _ s hm]
    exact ⟨rfl, rfl, rfl⟩
  · by_cases hstop : 0 < s.tx_pid ∧ env.killpg_ret 0 = -1 ∧ env.killpg_errno 0 ≠ ESRCH
    · rw [on_rx_fatal (with_ipc_results env a b c) s hm hstop.1 hstop.2,
        on_rx_fatal env s hm hstop.1 hstop.2]
      exact ⟨rfl, rfl, rfl⟩
    · by_cases hf : env.fork_ret = 0
      · by_cases hp : 0 < s.tx_pid
        · have hk : ¬ (env.killpg_ret 0 = -1 ∧ env.killpg_errno 0 ≠ ESRCH) := fun h => hstop ⟨hp, h⟩
          rw [on_rx_child_stop (with_ipc_results env a b c) s hm hp hk hf,
            on_rx_child_stop env s hm hp hk hf, rx_command_text_with_ipc,
            pipeline_child_with_ipc]
          exact ⟨rfl, rfl, rfl⟩
        · rw [on_rx_child_idle (with_ipc_results env a b c) s hm hp hf,
            on_rx_child_idle env s hm hp hf, rx_command_text_with_ipc,
            pipeline_child_with_ipc]
          exact ⟨rfl, rfl, rfl⟩
      · rw [on_rx_parent (with_ipc_results env a b c) s hm hstop hf, on_rx_parent env s hm hstop hf]
        refine ⟨rfl, rfl, ?_⟩
        simp only [without_ipc_append, without_ipc_control_events]
        rfl

theorem first_failed_send_le (env : Env) (n : Nat) : first_failed_send env n ≤ n := by
  induction n with
  | zero => exact Nat.le_refl 0
  | succ n ih =>
    simp only [first_failed_send]
    split
    · omega
    · split <;> omega

theorem first_failed_send_prev (env : Env) (n : Nat) :
    ∀ j, j < first_failed_send env n → 0 ≤ env.send_ret j := by
  induction n with
  | zero => intro j hj; exact absurd hj (Nat.not_lt_zero j)
  | succ n ih =>
    intro j hj
    simp only [first_failed_send] at hj
    split at hj
    · exact ih j hj
    · rename_i hge
      have hn : first_failed_send env n = n := by
        have := first_failed_send_le env n; omega
      split at hj
      · exact ih j (by omega)
      · rename_i hnf
        by_cases hjn : j = n
        · subst hjn; exact not_lt.mp hnf
        · exact ih j (by omega)

theorem first_failed_send_fails (env : Env) (n : Nat) (h : first_failed_send env n < n) :
    env.send_ret (first_failed_send env n) < 0 := by
  induction n with
  | zero => exact absurd h (Nat.not_lt_zero _)
  | succ n ih =>
    simp only [first_failed_send] at h ⊢
    split
    · rename_i hlt; exact ih hlt
    · rename_i hge
      split
      · rename_i hneg; exact hneg
      · rename_i hnf
        rw [if_neg hge, if_neg hnf] at h
        omega

/-- Every run of `change_frequency` returns the globals it was given, and its
trace and status do not depend on them. -/
theorem change_frequency_frame (env : Env) (frequency : String) (s s' : State) :
    (change_frequency env frequency s).state = s ∧
    (change_frequency env frequency s').trace = (change_frequency env frequency s).trace ∧
    (change_frequency env frequency s').status = (change_frequency env frequency s).status ∧
    server_sends (change_frequency env frequency s).trace = [] := by
  by_cases hfit : frequency.utf8ByteSize ≤ 17
  · by_cases hall : first_failed_send env 5 < 5
    · have h1 := change_frequency_failed_send env frequency s _ hfit hall
        (first_failed_send_prev env 5) (first_failed_send_fails env 5 hall)
      have h2 := change_frequency_failed_send env frequency s' _ hfit hall
        (first_failed_send_prev env 5) (first_failed_send_fails env 5 hall)
      rw [h1, h2]
      refine ⟨rfl, rfl, rfl, ?_⟩
      simp only [server_sends_append, server_sends_paced]
      generalize List.take 1 (List.drop (first_failed_send env 5)
        (change_frequency_commands frequency)) = l
      have hmap : ∀ l : List String, server_sends (l.map Event.send_telnet) = [] := by
        intro l
        induction l with
        | nil => rfl
        | cons c cs ih => simpa [server_sends] using ih
      rw [hmap]
      rfl
    · have hfive : first_failed_send env 5 = 5 := by
        have := first_failed_send_le env 5; omega
      have hsend : ∀ i, i < 5 → 0 ≤ env.send_ret i := fun i hi =>
        first_failed_send_prev env 5 i (by omega)
      rw [change_frequency_all_sent env frequency s hfit hsend,
        change_frequency_all_sent env frequency s' hfit hsend]
      exact ⟨rfl, rfl, rfl, server_sends_paced _⟩
  · have hnone : sprintf_into 20 ("f " ++ frequency) = none := by
      have h2 : ("f " : String).utf8ByteSize = 2 := by decide
      unfold sprintf_into
      rw [utf8ByteSize_append, h2, if_neg (by omega)]
    simp [change_frequency, hnone, server_sends]

theorem change_frequency_eq_mk (env : Env) (frequency : String) (s : State) :
    change_frequency env frequency s =
      Outcome.mk s (change_frequency env frequency initial_state).trace
        (change_frequency env frequency initial_state).status := by
  obtain ⟨hst, -, -, -⟩ := change_frequency_frame env frequency s initial_state
  obtain ⟨-, htr, hstat, -⟩ := change_frequency_frame env frequency initial_state s
  have heta : change_frequency env frequency s =
      Outcome.mk (change_frequency env frequency s).state (change_frequency env frequency s).trace
        (change_frequency env frequency s).status := rfl
  rw [heta, hst, htr, hstat]

theorem change_frequency_with_ipc (env : Env) (a b c : Int) (frequency : String) (s : State) :
    change_frequency (with_ipc_results env a b c) frequency s = change_frequency env frequency s := by
  simp only [change_frequency, send_telnet_paced, change_mode, with_ipc_results]

theorem menu_item_selected_ipc_frame (env : Env) (a b c : Int) (full_text : String) (s : State) :
    (menu_item_selected (with_ipc_results env a b c) full_text s).status
      = (menu_item_selected env full_text s).status ∧
    (menu_item_selected (with_ipc_results env a b c) full_text s).state
      = (menu_item_selected env full_text s).state ∧
    without_ipc (menu_item_selected (with_ipc_results env a b c) full_text s).trace
      = without_ipc (menu_item_selected env full_text s).trace := by
  unfold menu_item_selected
  split
  · exact ⟨rfl, rfl, rfl⟩
  · rw [change_frequency_with_ipc, change_frequency_eq_mk env _ s]
    generalize (change_frequency env (extract_frequency full_text) initial_state).trace = tr
    generalize (change_frequency env (extract_frequency full_text) initial_state).status = st
    by_cases hrun : st = Status.running
    · subst hrun
      simp only [Outcome.andThen_mk_running, Outcome.after_state, Outcome.after_trace,
        Outcome.after_status, send_ipc_command_state, send_ipc_command_status,
        without_ipc_append, without_ipc_send_ipc_command]
      exact ⟨trivial, trivial, trivial⟩
    · rw [Outcome.andThen_of_stopped _ _ hrun, Outcome.andThen_of_stopped _ _ hrun]
      exact ⟨rfl, rfl, rfl⟩

/-! ## Window close -/

theorem on_window_closed_tx_fatal (env : Env) (s : State) (hp : 0 < s.tx_pid)
    (hk : env.killpg_ret 0 = -1 ∧ env.killpg_errno 0 ≠ ESRCH) :
    on_window_closed env s =
      Outcome.mk s [Event.close_server, Event.killpg s.tx_pid SIGTERM, Event.exit EXIT_FAILURE]
        (Status.exited EXIT_FAILURE) := by
  simp only [on_window_closed, hp, hk, Outcome.andThen_mk_running, Outcome.andThen_mk_exited,
    Outcome.after_mk, ne_eq, not_false_eq_true, and_self, if_true]
  rfl

theorem on_window_closed_rx_fatal (env : Env) (s : State)
    (h1 : ¬ (0 < s.tx_pid ∧ env.killpg_ret 0 = -1 ∧ env.killpg_errno 0 ≠ ESRCH))
    (hp : 0 < s.rx_pid)
    (hk : env.killpg_ret (if 0 < s.tx_pid then 1 else 0) = -1 ∧
      env.killpg_errno (if 0 < s.tx_pid then 1 else 0) ≠ ESRCH) :
    on_window_closed env s =
      Outcome.mk { s with tx_pid := if 0 < s.tx_pid then 0 else s.tx_pid }
        (Event.close_server :: stop_events [] s.tx_pid (Event.store_tx_pid 0) ++
          [Event.killpg s.rx_pid SIGTERM, Event.exit EXIT_FAILURE])
        (Status.exited EXIT_FAILURE) := by
  by_cases ht : 0 < s.tx_pid
  · have hk0 : ¬ (env.killpg_ret 0 = -1 ∧ env.killpg_errno 0 ≠ ESRCH) := fun h => h1 ⟨ht, h⟩
    simp only [ht, if_true] at hk
    simp only [on_window_closed, stop_events, ht, hk0, hp, hk, Outcome.andThen_mk_running,
      Outcome.andThen_mk_exited, Outcome.after_mk, ne_eq, not_false_eq_true, and_self, if_true,
      if_false]
    rfl
  · simp only [ht, if_false] at hk
    simp only [on_window_closed, stop_events, ht, hp, hk, Outcome.andThen_mk_running,
      Outcome.andThen_mk_exited, Outcome.after_mk, ne_eq, not_false_eq_true, and_self, if_true,
      if_false]
    rfl

theorem on_window_closed_done (env : Env) (s : State)
    (h1 : ¬ (0 < s.tx_pid ∧ env.killpg_ret 0 = -1 ∧ env.killpg_errno 0 ≠ ESRCH))
    (h2 : ¬ (0 < s.rx_pid ∧ env.killpg_ret (if 0 < s.tx_pid then 1 else 0) = -1 ∧
      env.killpg_errno (if 0 < s.tx_pid then 1 else 0) ≠ ESRCH)) :
    on_window_closed env s =
      Outcome.mk
        { s with tx_pid := if 0 < s.tx_pid then 0 else s.tx_pid,
                 rx_pid := if 0 < s.rx_pid then 0 else s.rx_pid }
        (Event.close_server :: stop_events [] s.tx_pid (Event.store_tx_pid 0) ++
          stop_events [] s.rx_pid (Event.store_rx_pid 0) ++ [Event.gtk_main_quit])
        Status.running := by
  by_cases ht : 0 < s.tx_pid
  · have hk0 : ¬ (env.killpg_ret 0 = -1 ∧ env.killpg_errno 0 ≠ ESRCH) := fun h => h1 ⟨ht, h⟩
    by_cases hr : 0 < s.rx_pid
    · have hk1 : ¬ (env.killpg_ret 1 = -1 ∧ env.killpg_errno 1 ≠ ESRCH) := by
        intro h; apply h2; simp only [ht, if_true]; exact ⟨hr, h⟩
      simp only [on_window_closed, stop_events, ht, hk0, hr, hk1, Outcome.andThen_mk_running,
        Outcome.after_mk, if_true, if_false]
      rfl
    · simp only [on_window_closed, stop_events, ht, hk0, hr, Outcome.andThen_mk_running,
        Outcome.after_mk, if_true, if_false]
      rfl
  · by_cases hr : 0 < s.rx_pid
    · have hk1 : ¬ (env.killpg_ret 0 = -1 ∧ env.killpg_errno 0 ≠ ESRCH) := by
        intro h; apply h2; simp only [ht, if_false]; exact ⟨hr, h⟩
      simp only [on_window_closed, stop_events, ht, hr, hk1, Outcome.andThen_mk_running,
        Outcome.after_mk, if_true, if_false]
      rfl
    · simp only [on_window_closed, stop_events, ht, hr, Outcome.andThen_mk_running,
        Outcome.after_mk, if_true, if_false]
      rfl

/-! ## Mode and pids -/

theorem on_tx_keeps_mode_matching (env : Env) (s : State) (hf : 0 < env.fork_ret)
    (h : mode_matches_handles s) : mode_matches_handles (on_tx_button_clicked env s).state := by
  have hf0 : env.fork_ret ≠ 0 := by omega
  by_cases hm : s.rxtx_mode = 0
  · rw [on_tx_noop env s hm]; exact h
  · by_cases hstop : 0 < s.rx_pid ∧ env.killpg_ret 0 = -1 ∧ env.killpg_errno 0 ≠ ESRCH
    · rw [on_tx_fatal env s hm hstop.1 hstop.2]; exact h
    · rw [on_tx_parent env s hm hstop hf0]
      refine Or.inr (Or.inl ⟨rfl, hf, ?_⟩)
      show (if 0 < s.rx_pid then 0 else s.rx_pid) = 0
      split
      · rfl
      · rename_i hp
        rcases h with ⟨_, _, h3⟩ | ⟨h1, _, _⟩ | ⟨_, h2, _⟩
        · exact h3
        · exact absurd h1 hm
        · exact absurd h2 hp

theorem on_rx_keeps_mode_matching (env : Env) (s : State) (hf : 0 < env.fork_ret)
    (h : mode_matches_handles s) : mode_matches_handles (on_rx_button_clicked env s).state := by
  have hf0 : env.fork_ret ≠ 0 := by omega
  by_cases hm : s.rxtx_mode = 1
  · rw [on_rx_noop env s hm]; exact h
  · by_cases hstop : 0 < s.tx_pid ∧ env.killpg_ret 0 = -1 ∧ env.killpg_errno 0 ≠ ESRCH
    · rw [on_rx_fatal env s hm hstop.1 hstop.2]; exact h
    · rw [on_rx_parent env s hm hstop hf0]
      refine Or.inr (Or.inr ⟨rfl, hf, ?_⟩)
      show (if 0 < s.tx_pid then 0 else s.tx_pid) = 0
      split
      · rfl
      · rename_i hp
        rcases h with ⟨_, h2, _⟩ | ⟨_, h2, _⟩ | ⟨h1, _, _⟩
        · exact h2
        · exact absurd h2 hp
        · exact absurd h1 hm

theorem run_clicks_keeps_mode_matching (clicks : List (Request × Env)) :
    (∀ c ∈ clicks, 0 < c.2.fork_ret) → ∀ s : State, mode_matches_handles s →
      mode_matches_handles (run_clicks clicks s).state := by
  induction clicks with
  | nil => intro _ s h; simpa [run_clicks] using h
  | cons c rest ih =>
    intro hspawn s h
    obtain ⟨r, env⟩ := c
    have hf : 0 < env.fork_ret := hspawn (r, env) (List.mem_cons_self _ _)
    have hstep : mode_matches_handles (handle r env s).state := by
      cases r
      · exact on_tx_keeps_mode_matching env s hf h
      · exact on_rx_keeps_mode_matching env s hf h
    simp only [run_clicks, Outcome.andThen]
    split
    · exact ih (fun c hc => hspawn c (List.mem_cons_of_mem _ hc)) _ hstep
    · exact hstep

/-! ## Configuration file: reading -/

theorem scan_while_full (p : Char → Bool) (a : List Char) (b : Char) (rest : List Char) :
    ∀ w : Nat, (∀ c ∈ a, p c = true) → p b = false → a.length ≤ w →
      scan_while p w (a ++ b :: rest) = (a, b :: rest) := by
  induction a with
  | nil =>
    intro w _ hb _
    cases w with
    | zero => rfl
    | succ w => simp [scan_while, hb]
  | cons c cs ih =>
    intro w ha hb hw
    cases w with
    | zero => simp at hw
    | succ w =>
      have hc : p c = true := ha c (List.mem_cons_self _ _)
      have hcs : ∀ x ∈ cs, p x = true := fun x hx => ha x (List.mem_cons_of_mem _ hx)
      have hlen : cs.length ≤ w := by simpa using hw
      simp [scan_while, hc, ih w hcs hb hlen]

theorem key_ok_spec (key : String) (h : key_ok key = true) :
    key.toList ≠ [] ∧ key.toList.length ≤ 49 ∧
      ∀ c ∈ key.toList, (c != '=') = true ∧ isspace c = false := by
  simp only [key_ok, Bool.and_eq_true, Bool.not_eq_true', List.isEmpty_eq_false, decide_eq_true_eq,
    List.all_eq_true] at h
  refine ⟨?_, h.1.2, fun c hc => ?_⟩
  · intro hnil; rw [hnil] at h; simp at h
  · exact h.2 c hc

theorem value_ok_spec (value : String) (h : value_ok value = true) :
    value.toList ≠ [] ∧ value.toList.length ≤ 255 ∧ ∀ c ∈ value.toList, isspace c = false := by
  simp only [value_ok, Bool.and_eq_true, Bool.not_eq_true', List.isEmpty_eq_false,
    decide_eq_true_eq, List.all_eq_true] at h
  refine ⟨?_, h.1.2, fun c hc => h.2 c hc⟩
  intro hnil; rw [hnil] at h; simp at h

theorem dropWhile_isspace_of_head (c : Char) (cs : List Char) (hc : isspace c = false) :
    (c :: cs).dropWhile isspace = c :: cs := by
  simp [List.dropWhile, hc]

theorem fscanf_entry_line (key value : String) (rest : List Char)
    (hk : key_ok key = true) (hv : value_ok value = true) :
    fscanf_entry (config_line key.toList value.toList ++ rest)
      = some (key.toList, value.toList, rest.dropWhile isspace) := by
  obtain ⟨hk1, hk2, hk3⟩ := key_ok_spec key hk
  obtain ⟨hv1, hv2, hv3⟩ := value_ok_spec value hv
  have hkey : scan_while (fun c => c != '=') 49
      (key.toList ++ '=' :: (value.toList ++ '\n' :: rest))
      = (key.toList, '=' :: (value.toList ++ '\n' :: rest)) :=
    scan_while_full _ _ _ _ 49 (fun c hc => (hk3 c hc).1) (by decide) hk2
  have hval : scan_while (fun c => !isspace c) 255 (value.toList ++ '\n' :: rest)
      = (value.toList, '\n' :: rest) :=
    scan_while_full _ _ _ _ 255 (fun c hc => by simp [hv3 c hc]) (by decide) hv2
  have hdrop : (value.toList ++ '\n' :: rest).dropWhile isspace = value.toList ++ '\n' :: rest := by
    cases hvl : value.toList with
    | nil => exact absurd hvl hv1
    | cons c cs =>
      exact dropWhile_isspace_of_head c _ (hv3 c (by rw [hvl]; exact List.mem_cons_self _ _))
  have hnl : ('\n' :: rest).dropWhile isspace = rest.dropWhile isspace := by
    simp [List.dropWhile, isspace]
  have hshape : config_line key.toList value.toList ++ rest
      = key.toList ++ '=' :: (value.toList ++ '\n' :: rest) := by
    simp [config_line]
  unfold fscanf_entry
  rw [hshape, hkey]
  cases hkl : key.toList with
  | nil => exact absurd hkl hk1
  | cons c cs =>
    simp only [hdrop, hval]
    cases hvl : value.toList with
    | nil => exact absurd hvl hv1
    | cons d ds => simp only [hnl]

theorem render_entries_cons (e : String × String) (es : List (String × String)) :
    render_entries (e :: es) = config_line e.1.toList e.2.toList ++ render_entries es := by
  simp [render_entries]

theorem render_entries_append (es fs : List (String × String)) :
    render_entries (es ++ fs) = render_entries es ++ render_entries fs := by
  simp [render_entries]

theorem dropWhile_isspace_render (es : List (String × String)) (tail : List Char)
    (hes : ∀ e ∈ es, key_ok e.1 = true) (h : es ≠ [] ∨ tail = []) :
    (render_entries es ++ tail).dropWhile isspace = render_entries es ++ tail := by
  cases es with
  | nil =>
    rcases h with h | h
    · exact absurd rfl h
    · subst h; rfl
  | cons e es =>
    obtain ⟨hk1, -, hk3⟩ := key_ok_spec e.1 (hes e (List.mem_cons_self _ _))
    rw [render_entries_cons]
    cases hkl : e.1.toList with
    | nil => exact absurd hkl hk1
    | cons c cs =>
      have hc : isspace c = false := (hk3 c (by rw [hkl]; exact List.mem_cons_self _ _)).2
      simp only [config_line, List.cons_append, List.append_assoc]
      exact dropWhile_isspace_of_head c _ hc

/-- The loop of `load_config` over a store that starts with well-formed lines:
the value of the first entry with the key, when the key is among these lines or
the store has no other text. -/
theorem load_loop_entries (key : String) (tail : List Char) :
    ∀ (es : List (String × String)) (fuel : Nat),
      (∀ e ∈ es, key_ok e.1 = true ∧ value_ok e.2 = true) → es.length < fuel →
      (key ∈ es.map Prod.fst ∨ tail = []) →
      load_loop key.toList fuel (render_entries es ++ tail)
        = (es.lookup key).map String.toList := by
  intro es
  induction es with
  | nil =>
    intro fuel _ hfuel h
    rcases h with h | h
    · simp at h
    · subst h
      cases fuel with
      | zero => rfl
      | succ fuel => rfl
  | cons e es ih =>
    intro fuel hes hfuel h
    cases fuel with
    | zero => simp at hfuel
    | succ fuel =>
      have he := hes e (List.mem_cons_self _ _)
      have hes' : ∀ x ∈ es, key_ok x.1 = true ∧ value_ok x.2 = true :=
        fun x hx => hes x (List.mem_cons_of_mem _ hx)
      have hlen : es.length < fuel := by simpa using hfuel
      rw [render_entries_cons, List.append_assoc, load_loop, fscanf_entry_line e.1 e.2 _ he.1 he.2]
      simp only
      by_cases hkey : e.1 = key
      · have hl : e.1.toList = key.toList := by rw [hkey]
        obtain ⟨k, v⟩ := e
        simp only at hkey hl
        subst hkey
        simp [List.lookup]
      · have hl : ¬ e.1.toList = key.toList := fun hl => hkey (String.ext hl)
        have h' : key ∈ es.map Prod.fst ∨ tail = [] := by
          rcases h with h | h
          · simp only [List.map_cons, List.mem_cons] at h
            rcases h with h | h
            · exact absurd h.symm hkey
            · exact Or.inl h
          · exact Or.inr h
        have hne : es ≠ [] ∨ tail = [] := by
          rcases h' with h' | h'
          · left; intro hnil; rw [hnil] at h'; simp at h'
          · exact Or.inr h'
        rw [if_neg hl, dropWhile_isspace_render es tail (fun x hx => (hes' x hx).1) hne,
          ih fuel hes' hlen h']
        obtain ⟨k, v⟩ := e
        have hbeq : (key == k) = false := by
          simp only [beq_eq_false_iff_ne, ne_eq]
          exact fun hh => hkey hh.symm
        simp [List.lookup, hbeq]

/-! ## Configuration file: rewriting -/

theorem fgets_lines_line (size : Nat) (rest : List Char) :
    ∀ (body cur : List Char) (room : Nat), (∀ c ∈ body, c ≠ '\n') → body.length < room →
      fgets_lines size (body ++ '\n' :: rest) cur room
        = (cur.reverse ++ body ++ ['\n']) :: fgets_lines size rest [] (size - 1) := by
  intro body
  induction body with
  | nil =>
    intro cur room _ _
    simp [fgets_lines]
  | cons c cs ih =>
    intro cur room hbody hroom
    have hc : c ≠ '\n' := hbody c (List.mem_cons_self _ _)
    have hcs : ∀ x ∈ cs, x ≠ '\n' := fun x hx => hbody x (List.mem_cons_of_mem _ hx)
    have hlen : cs.length < room - 1 := by
      simp only [List.length_cons] at hroom; omega
    have hroom1 : ¬ room ≤ 1 := by
      simp only [List.length_cons] at hroom; omega
    rw [List.cons_append, fgets_lines, if_neg (by simp [hc, hroom1]), ih (c :: cur) (room - 1) hcs hlen]
    simp

theorem entry_ok_spec (e : String × String) (h : entry_ok e = true) :
    key_ok e.1 = true ∧ value_ok e.2 = true ∧ e.1.toList.length + e.2.toList.length + 2 ≤ 255 := by
  simpa [entry_ok, and_assoc] using h

theorem fgets_lines_entry (e : String × String) (rest : List Char) (h : entry_ok e = true) :
    fgets_lines 256 (config_line e.1.toList e.2.toList ++ rest) [] 255
      = config_line e.1.toList e.2.toList :: fgets_lines 256 rest [] 255 := by
  obtain ⟨hk, hv, hlen⟩ := entry_ok_spec e h
  obtain ⟨-, -, hk3⟩ := key_ok_spec e.1 hk
  obtain ⟨-, -, hv3⟩ := value_ok_spec e.2 hv
  have hbody : ∀ c ∈ e.1.toList ++ '=' :: e.2.toList, c ≠ '\n' := by
    intro c hc
    simp only [List.mem_append, List.mem_cons] at hc
    rcases hc with hc | hc | hc
    · intro hn; have := (hk3 c hc).2; rw [hn] at this; simp [isspace] at this
    · rw [hc]; decide
    · intro hn; have := hv3 c hc; rw [hn] at this; simp [isspace] at this
  have hshape : config_line e.1.toList e.2.toList ++ rest
      = (e.1.toList ++ '=' :: e.2.toList) ++ '\n' :: rest := by
    simp [config_line]
  have hline : config_line e.1.toList e.2.toList
      = [].reverse ++ (e.1.toList ++ '=' :: e.2.toList) ++ ['\n'] := by
    simp [config_line]
  rw [hshape, hline]
  exact fgets_lines_line 256 rest _ [] 255 hbody (by simp only [List.length_append, List.length_cons]; omega)

theorem fgets_lines_entries (es : List (String × String)) (tail : List Char)
    (hes : ∀ e ∈ es, entry_ok e = true) :
    fgets_lines 256 (render_entries es ++ tail) [] 255
      = (es.map fun e => config_line e.1.toList e.2.toList) ++ fgets_lines 256 tail [] 255 := by
  induction es with
  | nil => rfl
  | cons e es ih =>
    rw [render_entries_cons, List.append_assoc,
      fgets_lines_entry e _ (hes e (List.mem_cons_self _ _)),
      ih (fun x hx => hes x (List.mem_cons_of_mem _ hx))]
    rfl

theorem strstr_at_ge (needle : List Char) :
    ∀ (hay : List Char) (i j : Nat), strstr_at needle hay i = some j → i ≤ j := by
  intro hay
  induction hay with
  | nil =>
    intro i j h
    simp only [strstr_at] at h
    split at h
    · cases h; exact Nat.le_refl _
    · cases h
  | cons c cs ih =>
    intro i j h
    rw [strstr_at] at h
    split at h
    · cases h; exact Nat.le_refl _
    · have := ih (i + 1) j h; omega

theorem line_starts_with_iff (key line : List Char) :
    line_starts_with key line = true ↔ key <+: line := by
  unfold line_starts_with
  rw [beq_iff_eq]
  cases line with
  | nil =>
    simp only [strstr_at]
    by_cases h : key.isPrefixOf [] = true
    · simp only [h, if_true, true_iff]; exact List.isPrefixOf_iff_prefix.mp h
    · simp only [h, Bool.false_eq_true, if_false]
      constructor
      · intro hs; cases hs
      · exact fun hp => absurd (List.isPrefixOf_iff_prefix.mpr hp) h
  | cons c cs =>
    rw [strstr_at]
    by_cases h : key.isPrefixOf (c :: cs) = true
    · simp only [h, if_true, true_iff]; exact List.isPrefixOf_iff_prefix.mp h
    · simp only [h, Bool.false_eq_true, if_false]
      constructor
      · intro hs; have := strstr_at_ge key cs 1 0 hs; omega
      · exact fun hp => absurd (List.isPrefixOf_iff_prefix.mpr hp) h

theorem config_line_starts_with_key (key value : String) :
    line_starts_with key.toList (config_line key.toList value.toList) = true :=
  (line_starts_with_iff _ _).mpr ⟨_, rfl⟩

/-- The text after `save_config` on a store that starts with well-formed lines:
these lines updated in place, followed by some text that is empty or the
appended line when the store has no other text. -/
theorem save_text_entries (key value : String) (es : List (String × String)) (tail : List Char)
    (hes : ∀ e ∈ es, entry_ok e = true) :
    ∃ rest, save_text key.toList value.toList (render_entries es ++ tail)
        = render_entries (update_entries key value es) ++ rest ∧
      (tail = [] → rest =
        if es.any (fun e => line_starts_with key.toList (config_line e.1.toList e.2.toList))
        then [] else config_line key.toList value.toList) := by
  have hmap : ((es.map fun e => config_line e.1.toList e.2.toList).map fun line =>
      if line_starts_with key.toList line then config_line key.toList value.toList else line).flatten
      = render_entries (update_entries key value es) := by
    unfold render_entries update_entries
    rw [List.map_map, List.map_map]
    congr 1
    apply List.map_congr_left
    intro e _
    simp only [Function.comp]
    split <;> rfl
  refine ⟨((fgets_lines 256 tail [] 255).map fun line =>
      if line_starts_with key.toList line then config_line key.toList value.toList else line).flatten ++
    (if (fgets_lines 256 (render_entries es ++ tail) [] 255).any (line_starts_with key.toList)
      then [] else config_line key.toList value.toList), ?_, ?_⟩
  · unfold save_text
    rw [fgets_lines_entries es tail hes, List.map_append, List.flatten_append, hmap,
      List.append_assoc]
  · intro ht
    subst ht
    have hlines := fgets_lines_entries es [] hes
    have hnil : fgets_lines 256 [] [] 255 = [] := rfl
    rw [List.append_nil] at hlines ⊢
    rw [hlines, hnil]
    have hany : ∀ l : List (String × String),
        (l.map fun e => config_line e.1.toList e.2.toList).any (line_starts_with key.toList)
          = l.any fun e => line_starts_with key.toList (config_line e.1.toList e.2.toList) := by
      intro l
      induction l with
      | nil => rfl
      | cons e l ihl => simp only [List.map_cons, List.any_cons, ihl]
    simp only [List.map_nil, List.flatten_nil, List.nil_append, List.append_nil, hany]

/-! ## Configuration file: saving, then loading -/

theorem length_le_render_entries (es : List (String × String)) :
    es.length ≤ (render_entries es).length := by
  induction es with
  | nil => exact Nat.le_refl 0
  | cons e es ih =>
    rw [render_entries_cons]
    simp only [List.length_cons, List.length_append, config_line]
    omega

theorem update_entries_ok (key value : String) (es : List (String × String))
    (hk : key_ok key = true) (hv : value_ok value = true)
    (hes : ∀ e ∈ es, key_ok e.1 = true ∧ value_ok e.2 = true) :
    ∀ e ∈ update_entries key value es, key_ok e.1 = true ∧ value_ok e.2 = true := by
  intro e he
  simp only [update_entries, List.mem_map] at he
  obtain ⟨x, hx, hxe⟩ := he
  split at hxe
  · rw [← hxe]; exact ⟨hk, hv⟩
  · rw [← hxe]; exact hes x hx

theorem update_entries_cons (key value : String) (e : String × String)
    (es : List (String × String)) :
    update_entries key value (e :: es) =
      (if line_starts_with key.toList (config_line e.1.toList e.2.toList) then (key, value) else e)
        :: update_entries key value es := rfl

theorem lookup_cons_self (key value : String) (es : List (String × String)) :
    ((key, value) :: es).lookup key = some value := by
  simp [List.lookup]

theorem lookup_cons_ne (key : String) (e : String × String) (es : List (String × String))
    (h : e.1 ≠ key) : (e :: es).lookup key = es.lookup key := by
  obtain ⟨k, v⟩ := e
  have hbeq : (key == k) = false := by
    simp only [beq_eq_false_iff_ne, ne_eq]
    exact fun hh => h hh.symm
  simp [List.lookup, hbeq]

theorem lookup_update_entries_same (key value : String) (es : List (String × String))
    (h : es.any (fun e => line_starts_with key.toList (config_line e.1.toList e.2.toList)) = true) :
    key ∈ (update_entries key value es).map Prod.fst ∧
    (update_entries key value es).lookup key = some value := by
  induction es with
  | nil => simp at h
  | cons e es ih =>
    rw [update_entries_cons]
    by_cases hs : line_starts_with key.toList (config_line e.1.toList e.2.toList) = true
    · rw [if_pos hs, lookup_cons_self]
      exact ⟨List.mem_cons_self _ _, rfl⟩
    · have hne : e.1 ≠ key := by
        intro he
        apply hs
        rw [he]
        exact config_line_starts_with_key key e.2
      have h' : es.any (fun e => line_starts_with key.toList (config_line e.1.toList e.2.toList))
          = true := by
        rw [List.any_cons, Bool.or_eq_true] at h
        rcases h with h | h
        · exact absurd h hs
        · exact h
      obtain ⟨ih1, ih2⟩ := ih h'
      rw [if_neg hs, lookup_cons_ne key e _ hne]
      exact ⟨List.mem_cons_of_mem _ ih1, ih2⟩

theorem update_entries_of_none (key value : String) (es : List (String × String))
    (h : es.any (fun e => line_starts_with key.toList (config_line e.1.toList e.2.toList)) = false) :
    update_entries key value es = es ∧ es.lookup key = none := by
  induction es with
  | nil => exact ⟨rfl, rfl⟩
  | cons e es ih =>
    rw [List.any_cons, Bool.or_eq_false_iff] at h
    obtain ⟨ih1, ih2⟩ := ih h.2
    have hne : e.1 ≠ key := by
      intro he
      have hst := config_line_starts_with_key key e.2
      rw [← he] at hst
      have h1 := h.1
      rw [← he, hst] at h1
      cases h1
    rw [update_entries_cons, h.1, lookup_cons_ne key e _ hne, ih1]
    exact ⟨rfl, ih2⟩

theorem lookup_append_singleton (key value : String) (es : List (String × String))
    (h : es.lookup key = none) : (es ++ [(key, value)]).lookup key = some value := by
  induction es with
  | nil => exact lookup_cons_self key value []
  | cons e es ih =>
    by_cases he : e.1 = key
    · obtain ⟨k, v⟩ := e
      simp only at he
      subst he
      rw [lookup_cons_self] at h
      cases h
    · rw [lookup_cons_ne key e _ he] at h
      rw [List.cons_append, lookup_cons_ne key e _ he]
      exact ih h

theorem load_after_save_entries (key value : String) (es : List (String × String))
    (tail : List Char) (fuel : Nat)
    (hk : key_ok key = true) (hv : value_ok value = true) (hes : ∀ e ∈ es, entry_ok e = true)
    (hfound : key ∈ es.map Prod.fst ∨ tail = [])
    (hfuel : (save_text key.toList value.toList (render_entries es ++ tail)).length < fuel) :
    load_loop key.toList fuel (save_text key.toList value.toList (render_entries es ++ tail))
      = some value.toList := by
  have hes' : ∀ e ∈ es, key_ok e.1 = true ∧ value_ok e.2 = true := fun e he =>
    ⟨(entry_ok_spec e (hes e he)).1, (entry_ok_spec e (hes e he)).2.1⟩
  have hup := update_entries_ok key value es hk hv hes'
  obtain ⟨rest, hsave, hrest⟩ := save_text_entries key value es tail hes
  rw [hsave] at hfuel ⊢
  by_cases hany : es.any (fun e => line_starts_with key.toList (config_line e.1.toList e.2.toList))
      = true
  · obtain ⟨hmem, hlook⟩ := lookup_update_entries_same key value es hany
    have hlen : (update_entries key value es).length < fuel := by
      have := length_le_render_entries (update_entries key value es)
      simp only [List.length_append] at hfuel
      omega
    rw [load_loop_entries key rest _ fuel hup hlen (Or.inl hmem), hlook]
    rfl
  · have hany' : es.any (fun e => line_starts_with key.toList (config_line e.1.toList e.2.toList))
        = false := by simpa using hany
    obtain ⟨hsame, hnone⟩ := update_entries_of_none key value es hany'
    have htail : tail = [] := by
      rcases hfound with h | h
      · exfalso
        simp only [List.mem_map] at h
        obtain ⟨e, he, hek⟩ := h
        have hst : es.any (fun e => line_starts_with key.toList (config_line e.1.toList e.2.toList))
            = true := by
          rw [List.any_eq_true]
          exact ⟨e, he, by rw [hek]; exact config_line_starts_with_key key e.2⟩
        exact hany hst
      · exact h
    have hr := hrest htail
    rw [if_neg hany] at hr
    have hnew : render_entries (update_entries key value es) ++ rest
        = render_entries (es ++ [(key, value)]) ++ [] := by
      rw [hsame, hr, render_entries_append, List.append_nil]
      simp [render_entries]
    rw [hnew] at hfuel ⊢
    have hall : ∀ e ∈ es ++ [(key, value)], key_ok e.1 = true ∧ value_ok e.2 = true := by
      intro e he
      simp only [List.mem_append, List.mem_singleton] at he
      rcases he with he | he
      · exact hes' e he
      · rw [he]; exact ⟨hk, hv⟩
    have hlen : (es ++ [(key, value)]).length < fuel := by
      have := length_le_render_entries (es ++ [(key, value)])
      simp only [List.append_nil] at hfuel
      omega
    rw [load_loop_entries key [] _ fuel hall hlen (Or.inr rfl),
      lookup_append_singleton key value es hnone]
    rfl

/-! ## Configuration file: the other keys -/

theorem update_entries_eq_map (key value : String) (es : List (String × String))
    (hstart : ∀ e ∈ es, line_starts_with key.toList (config_line e.1.toList e.2.toList) = true →
      e.1 = key) :
    update_entries key value es = es.map fun e => if e.1 = key then (key, value) else e := by
  unfold update_entries
  apply List.map_congr_left
  intro e he
  by_cases hek : e.1 = key
  · have hst : line_starts_with key.toList (config_line e.1.toList e.2.toList) = true := by
      rw [hek]; exact config_line_starts_with_key key e.2
    rw [if_pos hst, if_pos hek]
  · have hst : ¬ line_starts_with key.toList (config_line e.1.toList e.2.toList) = true :=
      fun h => hek (hstart e he h)
    rw [if_neg hst, if_neg hek]

theorem lookup_map_other (key value other : String) (es : List (String × String))
    (hne : other ≠ key) :
    (es.map fun e => if e.1 = key then (key, value) else e).lookup other = es.lookup other ∧
    (other ∈ es.map Prod.fst →
      other ∈ (es.map fun e => if e.1 = key then (key, value) else e).map Prod.fst) := by
  induction es with
  | nil => exact ⟨rfl, fun h => h⟩
  | cons e es ih =>
    rw [List.map_cons]
    by_cases hek : e.1 = key
    · have he2 : e.1 ≠ other := fun h => hne (h ▸ hek)
      rw [if_pos hek, lookup_cons_ne other (key, value) _ (fun h => hne h.symm),
        lookup_cons_ne other e _ he2]
      refine ⟨ih.1, fun h => ?_⟩
      simp only [List.map_cons, List.mem_cons] at h
      rcases h with h | h
      · exact absurd h.symm he2
      · exact List.mem_cons_of_mem _ (ih.2 h)
    · rw [if_neg hek]
      by_cases heo : e.1 = other
      · obtain ⟨k, v⟩ := e
        simp only at heo
        subst heo
        rw [lookup_cons_self, lookup_cons_self]
        exact ⟨rfl, fun _ => List.mem_cons_self _ _⟩
      · rw [lookup_cons_ne other e _ heo, lookup_cons_ne other e _ heo]
        refine ⟨ih.1, fun h => ?_⟩
        simp only [List.map_cons, List.mem_cons] at h
        rcases h with h | h
        · exact absurd h.symm heo
        · exact List.mem_cons_of_mem _ (ih.2 h)

theorem lookup_append_other (key value other : String) (es : List (String × String))
    (hne : other ≠ key) : (es ++ [(key, value)]).lookup other = es.lookup other := by
  induction es with
  | nil => exact lookup_cons_ne other (key, value) [] (fun h => hne h.symm)
  | cons e es ih =>
    by_cases heo : e.1 = other
    · obtain ⟨k, v⟩ := e
      simp only at heo
      subst heo
      rw [List.cons_append, lookup_cons_self, lookup_cons_self]
    · rw [List.cons_append, lookup_cons_ne other e _ heo, lookup_cons_ne other e _ heo]
      exact ih

theorem load_other_after_save_entries (key value other : String) (es : List (String × String))
    (tail : List Char) (fuel : Nat)
    (hk : key_ok key = true) (hv : value_ok value = true) (hes : ∀ e ∈ es, entry_ok e = true)
    (hstart : ∀ e ∈ es, line_starts_with key.toList (config_line e.1.toList e.2.toList) = true →
      e.1 = key)
    (hne : other ≠ key) (hfound : other ∈ es.map Prod.fst ∨ tail = [])
    (hfuel : (save_text key.toList value.toList (render_entries es ++ tail)).length < fuel) :
    load_loop other.toList fuel (save_text key.toList value.toList (render_entries es ++ tail))
      = (es.lookup other).map String.toList := by
  have hes' : ∀ e ∈ es, key_ok e.1 = true ∧ value_ok e.2 = true := fun e he =>
    ⟨(entry_ok_spec e (hes e he)).1, (entry_ok_spec e (hes e he)).2.1⟩
  have hup := update_entries_ok key value es hk hv hes'
  have hmap := update_entries_eq_map key value es hstart
  obtain ⟨hlook, hmem⟩ := lookup_map_other key value other es hne
  rw [← hmap] at hlook hmem
  obtain ⟨rest, hsave, hrest⟩ := save_text_entries key value es tail hes
  rw [hsave] at hfuel ⊢
  rcases hfound with hin | htail
  · have hlen : (update_entries key value es).length < fuel := by
      have := length_le_render_entries (update_entries key value es)
      simp only [List.length_append] at hfuel
      omega
    rw [load_loop_entries other rest _ fuel hup hlen (Or.inl (hmem hin)), hlook]
  · have hr := hrest htail
    by_cases hany : es.any (fun e => line_starts_with key.toList (config_line e.1.toList e.2.toList))
        = true
    · rw [if_pos hany] at hr
      rw [hr] at hfuel ⊢
      have hlen : (update_entries key value es).length < fuel := by
        have := length_le_render_entries (update_entries key value es)
        simp only [List.length_append] at hfuel
        omega
      rw [load_loop_entries other [] _ fuel hup hlen (Or.inr rfl), hlook]
    · rw [if_neg hany] at hr
      have hnew : render_entries (update_entries key value es) ++ rest
          = render_entries (update_entries key value es ++ [(key, value)]) ++ [] := by
        rw [hr, render_entries_append, List.append_nil]
        simp [render_entries]
      rw [hnew] at hfuel ⊢
      have hall : ∀ e ∈ update_entries key value es ++ [(key, value)],
          key_ok e.1 = true ∧ value_ok e.2 = true := by
        intro e he
        simp only [List.mem_append, List.mem_singleton] at he
        rcases he with he | he
        · exact hup e he
        · rw [he]; exact ⟨hk, hv⟩
      have hlen : (update_entries key value es ++ [(key, value)]).length < fuel := by
        have := length_le_render_entries (update_entries key value es ++ [(key, value)])
        simp only [List.append_nil] at hfuel
        omega
      rw [load_loop_entries other [] _ fuel hall hlen (Or.inr rfl),
        lookup_append_other key value other _ hne, hlook]

set_option maxRecDepth 100000 in
/-- The test `strstr(line, key) == line` of `save_config` does not look for the
`=` after the key: on the default configuration, saving under `call` replaces
the line of `callsign`, while `load_config` compares whole keys. -/
theorem save_config_replaces_line_starting_with_key :
    load_config "callsign" "none" (create_default_config true none) = "N0CALL" ∧
    load_config "callsign" "none"
      (save_config "call" "X" true (create_default_config true none)) = "none" ∧
    save_config "call" "X" true (create_default_config true none) =
      some ("fdvmode=700D\n" ++ "call=X\n" ++ "grid_square=AA00ab\n" ++ "squelch_level=-5\n" ++
        "input_level=1\n" ++ "start_mode=-1\n" ++ "version=sBitx fdv_ptt 2.4.6a\n" ++
        "message=--\n") := by
  decide

/-! ## Configuration file: the loop of `load_config` terminates -/

theorem scan_while_split (p : Char → Bool) :
    ∀ (l : List Char) (w : Nat), (scan_while p w l).1 ++ (scan_while p w l).2 = l := by
  intro l
  induction l with
  | nil => intro w; cases w <;> rfl
  | cons c cs ih =>
    intro w
    cases w with
    | zero => rfl
    | succ w =>
      simp only [scan_while]
      split
      · simp [ih w]
      · rfl

theorem fscanf_entry_shorter (input key value rest : List Char)
    (h : fscanf_entry input = some (key, value, rest)) : rest.length < input.length := by
  unfold fscanf_entry at h
  have hk := scan_while_split (fun c => c != '=') input 49
  generalize scan_while (fun c => c != '=') 49 input = r1 at h hk
  obtain ⟨k1, rest1⟩ := r1
  simp only at hk
  split at h
  · cases h
  · rename_i fk rest0 hne heq
    simp only [Prod.mk.injEq] at heq
    obtain ⟨hk1, hr1⟩ := heq
    have hv := scan_while_split (fun c => !isspace c) (rest0.dropWhile isspace) 255
    generalize scan_while (fun c => !isspace c) 255 (rest0.dropWhile isspace) = r2 at h hv
    obtain ⟨v1, rest2⟩ := r2
    simp only at hv
    split at h
    · cases h
    · rename_i fv rest3 hne2 heq2
      simp only [Option.some.injEq, Prod.mk.injEq] at h
      obtain ⟨-, -, hrest⟩ := h
      have h1 : (rest3.dropWhile isspace).length ≤ rest3.length :=
        (List.dropWhile_sublist isspace).length_le
      have h2 : (rest0.dropWhile isspace).length ≤ rest0.length :=
        (List.dropWhile_sublist isspace).length_le
      simp only [Prod.mk.injEq] at heq2
      obtain ⟨-, hr3⟩ := heq2
      have h3 : rest3.length ≤ (rest0.dropWhile isspace).length := by
        rw [← hv, ← hr3]; simp
      have h4 : rest0.length < input.length := by
        rw [← hk, hr1, List.length_append, List.length_cons]; omega
      rw [← hrest]
      omega
  · cases h

theorem load_loop_fuel (key : List Char) :
    ∀ (f g : Nat) (input : List Char), input.length < f → input.length < g →
      load_loop key f input = load_loop key g input := by
  intro f
  induction f with
  | zero => intro g input hf; exact absurd hf (Nat.not_lt_zero _)
  | succ f ih =>
    intro g input hf hg
    cases g with
    | zero => exact absurd hg (Nat.not_lt_zero _)
    | succ g =>
      simp only [load_loop]
      cases hfs : fscanf_entry input with
      | none => rfl
      | some r =>
        obtain ⟨k, v, rest⟩ := r
        have hlt := fscanf_entry_shorter input k v rest hfs
        simp only
        split
        · rfl
        · exact ih g rest (by omega) (by omega)

/-! ## Claims -/

/-- C1: from the initial state, after every prefix of every sequence of TX / RX
clicks (whatever the system calls return, in particular when every `fork`
returns a positive id) `tx_pid > 0` and `rx_pid > 0` never hold together; and in
every callback run that forks while the opposing pid is active, the trace starts
with the `killpg` of the opposing group and the store of 0 into its pid, followed
by the only `fork` of the run (for RX after the `usleep`). -/
theorem at_most_one_pipeline_active (clicks : List (Request × Env)) (n : Nat) (env : Env)
    (s : State) :
    ¬ (0 < (run_clicks (clicks.take n) initial_state).state.tx_pid ∧
        0 < (run_clicks (clicks.take n) initial_state).state.rx_pid) ∧
    (0 < s.rx_pid → Event.fork ∈ (on_tx_button_clicked env s).trace →
      [Event.killpg s.rx_pid SIGTERM, Event.store_rx_pid 0, Event.fork]
          <+: (on_tx_button_clicked env s).trace ∧
        (on_tx_button_clicked env s).trace.count Event.fork = 1) ∧
    (0 < s.tx_pid → Event.fork ∈ (on_rx_button_clicked env s).trace →
      [Event.usleep 1500000, Event.killpg s.tx_pid SIGTERM, Event.store_tx_pid 0, Event.fork]
          <+: (on_rx_button_clicked env s).trace ∧
        (on_rx_button_clicked env s).trace.count Event.fork = 1) := by
  refine ⟨run_clicks_keeps_exclusion _ _ (by decide), ?_, ?_⟩
  · intro hp hfork
    obtain ⟨rest, htr, hrest⟩ := on_tx_spawn_after_stop env s hp hfork
    refine ⟨⟨rest, by rw [htr]; rfl⟩, ?_⟩
    exact count_fork_of_split _ [Event.killpg s.rx_pid SIGTERM, Event.store_rx_pid 0] rest
      (by rw [htr]; rfl) (by simp) hrest
  · intro hp hfork
    obtain ⟨rest, htr, hrest⟩ := on_rx_spawn_after_stop env s hp hfork
    refine ⟨⟨rest, by rw [htr]; rfl⟩, ?_⟩
    exact count_fork_of_split _
      [Event.usleep 1500000, Event.killpg s.tx_pid SIGTERM, Event.store_tx_pid 0] rest
      (by rw [htr]; rfl) (by simp) hrest

/-- Witness of C1: TX, RX, TX clicks from the initial state, a TX click in a
state whose receive pipeline is active and an RX click in a state whose transmit
pipeline is active. -/
theorem at_most_one_pipeline_active_witness :
    (0 : Int) < (State.mk 1 0 41 0).rx_pid ∧
    Event.fork ∈ (on_tx_button_clicked (env_ok 42) (State.mk 1 0 41 0)).trace ∧
    ¬ (0 < (run_clicks (List.take 3 [(Request.transmit, env_ok 40), (Request.receive, env_ok 41),
          (Request.transmit, env_ok 42)]) initial_state).state.tx_pid ∧
        0 < (run_clicks (List.take 3 [(Request.transmit, env_ok 40), (Request.receive, env_ok 41),
          (Request.transmit, env_ok 42)]) initial_state).state.rx_pid) ∧
    ([Event.killpg 41 SIGTERM, Event.store_rx_pid 0, Event.fork]
        <+: (on_tx_button_clicked (env_ok 42) (State.mk 1 0 41 0)).trace ∧
      (on_tx_button_clicked (env_ok 42) (State.mk 1 0 41 0)).trace.count Event.fork = 1) ∧
    (0 : Int) < (State.mk 0 40 0 0).tx_pid ∧
    Event.fork ∈ (on_rx_button_clicked (env_ok 41) (State.mk 0 40 0 0)).trace ∧
    ([Event.usleep 1500000, Event.killpg 40 SIGTERM, Event.store_tx_pid 0, Event.fork]
        <+: (on_rx_button_clicked (env_ok 41) (State.mk 0 40 0 0)).trace ∧
      (on_rx_button_clicked (env_ok 41) (State.mk 0 40 0 0)).trace.count Event.fork = 1) :=
  ⟨by decide, by decide,
    (at_most_one_pipeline_active
      [(Request.transmit, env_ok 40), (Request.receive, env_ok 41), (Request.transmit, env_ok 42)]
      3 (env_ok 42) (State.mk 1 0 41 0)).1,
    (at_most_one_pipeline_active
      [(Request.transmit, env_ok 40), (Request.receive, env_ok 41), (Request.transmit, env_ok 42)]
      3 (env_ok 42) (State.mk 1 0 41 0)).2.1 (by decide) (by decide),
    by decide, by decide,
    (at_most_one_pipeline_active [] 0 (env_ok 41) (State.mk 0 40 0 0)).2.2
      (by decide) (by decide)⟩

/-- C2: a request for the mode that is already current does nothing: with
`rxtx_mode = 0` the TX callback, and with `rxtx_mode = 1` the RX callback, has an
empty trace (no spawn, no signal, no control command, no notification), leaves
every global unchanged and keeps running. -/
theorem request_for_current_mode_is_noop (env : Env) (s : State) :
    (s.rxtx_mode = 0 → on_tx_button_clicked env s = Outcome.mk s [] Status.running) ∧
    (s.rxtx_mode = 1 → on_rx_button_clicked env s = Outcome.mk s [] Status.running) :=
  ⟨on_tx_noop env s, on_rx_noop env s⟩

/-- Witness of C2: a TX click while transmitting with pid 40, an RX click while
receiving with pid 41. -/
theorem request_for_current_mode_is_noop_witness :
    on_tx_button_clicked (env_ok 50) (State.mk 0 40 0 0)
        = Outcome.mk (State.mk 0 40 0 0) [] Status.running ∧
    on_rx_button_clicked (env_ok 50) (State.mk 1 0 41 0)
        = Outcome.mk (State.mk 1 0 41 0) [] Status.running :=
  ⟨(request_for_current_mode_is_noop (env_ok 50) (State.mk 0 40 0 0)).1 rfl,
    (request_for_current_mode_is_noop (env_ok 50) (State.mk 1 0 41 0)).2 rfl⟩

/-- C3 (as stated, refuted): with every send succeeding, `change_frequency` on
"14236" sends `f 14236` first and `m DIGITAL` second, not the mode command first. -/
theorem change_frequency_mode_first_counterexample :
    telnet_sends (change_frequency (env_ok 1) "14236" initial_state).trace
        = ["f 14236", "m DIGITAL", "PITCH 1500", "LOW 900", "HIGH 2100"] ∧
    telnet_sends (change_frequency (env_ok 1) "14236" initial_state).trace
        ≠ ["m DIGITAL", "f 14236", "PITCH 1500", "LOW 900", "HIGH 2100"] := by
  decide

/-- C3 (amended): for every frequency that fits the 20-byte command buffer and
when no send fails, `change_frequency` sends exactly five commands on the command
socket, in the order `f <value>`, the mode-select command, `PITCH 1500`,
`LOW 900`, `HIGH 2100`, sends nothing on the control socket, and returns with
the globals unchanged; for 14236 the five are `f 14236`, `m DIGITAL`,
`PITCH 1500`, `LOW 900`, `HIGH 2100`. -/
theorem change_frequency_command_order (env : Env) (frequency : String) (s : State)
    (hfit : frequency.utf8ByteSize ≤ 17) (hsend : ∀ i, i < 5 → 0 ≤ env.send_ret i) :
    telnet_sends (change_frequency env frequency s).trace
        = ["f " ++ frequency, change_mode_command frequency, "PITCH 1500", "LOW 900", "HIGH 2100"] ∧
    server_sends (change_frequency env frequency s).trace = [] ∧
    (change_frequency env frequency s).status = Status.running ∧
    (change_frequency env frequency s).state = s ∧
    telnet_sends (change_frequency env "14236" s).trace
        = ["f 14236", "m DIGITAL", "PITCH 1500", "LOW 900", "HIGH 2100"] := by
  rw [change_frequency_all_sent env frequency s hfit hsend,
    change_frequency_all_sent env "14236" s (by decide) hsend]
  refine ⟨?_, ?_, rfl, rfl, ?_⟩
  · exact telnet_sends_paced _
  · exact server_sends_paced _
  · rw [telnet_sends_paced]; decide

/-- Witness of C3 (amended): the frequency 7177 with every send succeeding. -/
theorem change_frequency_command_order_witness :
    ("7177" : String).utf8ByteSize ≤ 17 ∧ (∀ i, i < 5 → 0 ≤ (env_ok 1).send_ret i) ∧
    telnet_sends (change_frequency (env_ok 1) "7177" initial_state).trace
        = ["f " ++ "7177", change_mode_command "7177", "PITCH 1500", "LOW 900", "HIGH 2100"] :=
  ⟨by decide, fun _ _ => by simp [env_ok],
    (change_frequency_command_order (env_ok 1) "7177" initial_state (by decide)
      (fun _ _ => by simp [env_ok])).1⟩

/-- C4: for each of the frequency strings 1997, 3625, 3643, 3693, 3697, 3850,
7177, 7197 the mode command chosen and sent by `change_mode` is `m LSB`. -/
theorem lsb_table_selects_lsb (env : Env) (i : Nat) (s : State) (frequency : String)
    (h : frequency ∈ lsb_table) :
    change_mode_command frequency = "m LSB" ∧
    telnet_sends (change_mode env i frequency s).trace = ["m LSB"] := by
  have hc : change_mode_command frequency = "m LSB" := by
    simp only [lsb_table, List.mem_cons, List.mem_singleton, List.not_mem_nil, or_false] at h
    rcases h with h | h | h | h | h | h | h | h <;> subst h <;> decide
  refine ⟨hc, ?_⟩
  rw [change_mode_eq, hc]
  split <;> rfl

/-- Witness of C4: the 40 m frequency 7197. -/
theorem lsb_table_selects_lsb_witness :
    "7197" ∈ lsb_table ∧
    change_mode_command "7197" = "m LSB" ∧
    telnet_sends (change_mode (env_ok 1) 1 "7197" initial_state).trace = ["m LSB"] :=
  ⟨by decide, lsb_table_selects_lsb (env_ok 1) 1 initial_state "7197" (by decide)⟩

/-- C5 (as stated, refuted): the numeric value of "19970" is 19970, which is not
in the table, yet `change_mode` chooses and sends `m LSB` because the text
contains "1997". -/
theorem numeric_lookup_counterexample :
    atoi "19970" = 19970 ∧
    atoi "19970" ∉ [(1997 : Int), 3625, 3643, 3693, 3697, 3850, 7177, 7197] ∧
    change_mode_command "19970" = "m LSB" ∧
    telnet_sends (change_mode (env_ok 1) 1 "19970" initial_state).trace = ["m LSB"] := by
  decide

/-- C5 (amended): the decision of `change_mode` is a substring test on the text of
the frequency: the command chosen and sent is `m DIGITAL` for every frequency
string that contains none of the eight table strings as a substring, and
`m LSB` for every string that contains one. -/
theorem change_mode_is_substring_test (env : Env) (i : Nat) (s : State) (frequency : String) :
    ((∀ k, k ∈ lsb_table → ¬ (k.toList <:+: frequency.toList)) →
      change_mode_command frequency = "m DIGITAL" ∧
      telnet_sends (change_mode env i frequency s).trace = ["m DIGITAL"]) ∧
    ((∃ k, k ∈ lsb_table ∧ k.toList <:+: frequency.toList) →
      change_mode_command frequency = "m LSB" ∧
      telnet_sends (change_mode env i frequency s).trace = ["m LSB"]) := by
  have hsend : telnet_sends (change_mode env i frequency s).trace
      = [change_mode_command frequency] := by
    rw [change_mode_eq]
    split <;> rfl
  constructor
  · intro h
    have hc : change_mode_command frequency = "m DIGITAL" := by
      unfold change_mode_command
      rw [if_neg]
      simp only [Bool.or_eq_true, strstr_isSome, not_or]
      simp only [lsb_table, List.mem_cons, List.mem_singleton, List.not_mem_nil, or_false,
        forall_eq_or_imp, forall_eq] at h
      tauto
    exact ⟨hc, by rw [hsend, hc]⟩
  · rintro ⟨k, hk, hinf⟩
    have hc : change_mode_command frequency = "m LSB" := by
      unfold change_mode_command
      rw [if_pos]
      simp only [Bool.or_eq_true, strstr_isSome]
      simp only [lsb_table, List.mem_cons, List.mem_singleton, List.not_mem_nil, or_false] at hk
      rcases hk with h | h | h | h | h | h | h | h <;> subst h <;> tauto
    exact ⟨hc, by rw [hsend, hc]⟩

/-- Witness of C5 (amended): "14236" contains none of the table strings, "19970"
contains "1997". -/
theorem change_mode_is_substring_test_witness :
    (∀ k, k ∈ lsb_table → ¬ (k.toList <:+: ("14236" : String).toList)) ∧
    (change_mode_command "14236" = "m DIGITAL" ∧
      telnet_sends (change_mode (env_ok 1) 1 "14236" initial_state).trace = ["m DIGITAL"]) ∧
    ("1997" ∈ lsb_table ∧ ("1997" : String).toList <:+: ("19970" : String).toList) ∧
    (change_mode_command "19970" = "m LSB" ∧
      telnet_sends (change_mode (env_ok 1) 1 "19970" initial_state).trace = ["m LSB"]) :=
  ⟨by decide,
    (change_mode_is_substring_test (env_ok 1) 1 initial_state "14236").1 (by decide),
    by decide,
    (change_mode_is_substring_test (env_ok 1) 1 initial_state "19970").2
      ⟨"1997", by decide, by decide⟩⟩

/-- C6: an RX click in a state with an active transmit pid (mode not RX) first
sleeps exactly 1,500,000 microseconds and then signals the transmit group, with
no other `usleep` in the run; a TX click in a state with an active receive pid
(mode not TX) signals the receive group as its very first effect and never
sleeps. -/
theorem drain_delay_only_before_tx_stop (env : Env) (s : State) :
    (s.rxtx_mode ≠ 1 → 0 < s.tx_pid →
      [Event.usleep 1500000, Event.killpg s.tx_pid SIGTERM] <+: (on_rx_button_clicked env s).trace ∧
      (∀ us, Event.usleep us ∈ (on_rx_button_clicked env s).trace → us = 1500000) ∧
      (on_rx_button_clicked env s).trace.count (Event.usleep 1500000) = 1) ∧
    (s.rxtx_mode ≠ 0 → 0 < s.rx_pid →
      [Event.killpg s.rx_pid SIGTERM] <+: (on_tx_button_clicked env s).trace ∧
      ∀ us, Event.usleep us ∉ (on_tx_button_clicked env s).trace) := by
  constructor
  · intro hm hp
    obtain ⟨rest, htr, hrest⟩ := on_rx_stop_shape env s hm hp
    rw [htr]
    refine ⟨⟨rest, rfl⟩, ?_, ?_⟩
    · intro us hmem
      simp only [List.mem_cons] at hmem
      rcases hmem with h | h | h
      · cases h; rfl
      · cases h
      · exact absurd h (hrest us)
    · rw [List.count_cons_self, List.count_cons_of_ne (by simp),
        List.count_eq_zero.mpr (hrest _)]
  · intro hm hp
    obtain ⟨rest, htr, hrest⟩ := on_tx_stop_shape env s hm hp
    rw [htr]
    refine ⟨⟨rest, rfl⟩, ?_⟩
    intro us hmem
    simp only [List.mem_cons] at hmem
    rcases hmem with h | h
    · cases h
    · exact absurd h (hrest us)

/-- Witness of C6: an RX click while transmitting with pid 40 and a TX click
while receiving with pid 41. -/
theorem drain_delay_only_before_tx_stop_witness :
    ((State.mk 0 40 0 0).rxtx_mode ≠ 1 ∧ 0 < (State.mk 0 40 0 0).tx_pid) ∧
    ([Event.usleep 1500000, Event.killpg 40 SIGTERM]
        <+: (on_rx_button_clicked (env_ok 41) (State.mk 0 40 0 0)).trace ∧
      (on_rx_button_clicked (env_ok 41) (State.mk 0 40 0 0)).trace.count (Event.usleep 1500000) = 1) ∧
    ((State.mk 1 0 41 0).rxtx_mode ≠ 0 ∧ 0 < (State.mk 1 0 41 0).rx_pid) ∧
    [Event.killpg 41 SIGTERM] <+: (on_tx_button_clicked (env_ok 42) (State.mk 1 0 41 0)).trace :=
  ⟨⟨by decide, by decide⟩,
    ⟨((drain_delay_only_before_tx_stop (env_ok 41) (State.mk 0 40 0 0)).1
        (by decide) (by decide)).1,
      ((drain_delay_only_before_tx_stop (env_ok 41) (State.mk 0 40 0 0)).1
        (by decide) (by decide)).2.2⟩,
    ⟨by decide, by decide⟩,
    ((drain_delay_only_before_tx_stop (env_ok 42) (State.mk 1 0 41 0)).2
      (by decide) (by decide)).1⟩

/-- C7: when a TX (RX) click has to stop an active opposing pipeline, the run
exits before any fork, control command or notification exactly when `killpg`
returned -1 with an `errno` other than `ESRCH`; when `killpg` succeeded or failed
with `ESRCH`, the opposing pid is signalled and cleared, then the pipeline is
forked, and in the parent the new pid and the new mode are recorded. -/
theorem stop_failure_is_fatal_unless_esrch (env : Env) (s : State) :
    (s.rxtx_mode ≠ 0 → 0 < s.rx_pid →
      ((env.killpg_ret 0 = -1 ∧ env.killpg_errno 0 ≠ ESRCH) ↔
        ((on_tx_button_clicked env s).status = Status.exited EXIT_FAILURE ∧
          Event.fork ∉ (on_tx_button_clicked env s).trace ∧
          server_sends (on_tx_button_clicked env s).trace = [] ∧
          ipc_sends (on_tx_button_clicked env s).trace = [])) ∧
      (env.killpg_ret 0 ≠ -1 ∨ env.killpg_errno 0 = ESRCH →
        [Event.killpg s.rx_pid SIGTERM, Event.store_rx_pid 0, Event.fork]
            <+: (on_tx_button_clicked env s).trace ∧
          (on_tx_button_clicked env s).state.rx_pid = 0 ∧
          (env.fork_ret ≠ 0 → (on_tx_button_clicked env s).state.tx_pid = env.fork_ret ∧
            (on_tx_button_clicked env s).state.rxtx_mode = 0))) ∧
    (s.rxtx_mode ≠ 1 → 0 < s.tx_pid →
      ((env.killpg_ret 0 = -1 ∧ env.killpg_errno 0 ≠ ESRCH) ↔
        ((on_rx_button_clicked env s).status = Status.exited EXIT_FAILURE ∧
          Event.fork ∉ (on_rx_button_clicked env s).trace ∧
          server_sends (on_rx_button_clicked env s).trace = [] ∧
          ipc_sends (on_rx_button_clicked env s).trace = [])) ∧
      (env.killpg_ret 0 ≠ -1 ∨ env.killpg_errno 0 = ESRCH →
        [Event.usleep 1500000, Event.killpg s.tx_pid SIGTERM, Event.store_tx_pid 0, Event.fork]
            <+: (on_rx_button_clicked env s).trace ∧
          (on_rx_button_clicked env s).state.tx_pid = 0 ∧
          (env.fork_ret ≠ 0 → (on_rx_button_clicked env s).state.rx_pid = env.fork_ret ∧
            (on_rx_button_clicked env s).state.rxtx_mode = 1))) := by
  constructor
  · intro hm hp
    have hok : ¬ (env.killpg_ret 0 = -1 ∧ env.killpg_errno 0 ≠ ESRCH) →
        [Event.killpg s.rx_pid SIGTERM, Event.store_rx_pid 0, Event.fork]
            <+: (on_tx_button_clicked env s).trace ∧
          (on_tx_button_clicked env s).state.rx_pid = 0 ∧
          (env.fork_ret ≠ 0 → (on_tx_button_clicked env s).state.tx_pid = env.fork_ret ∧
            (on_tx_button_clicked env s).state.rxtx_mode = 0) := by
      intro hk
      by_cases hf : env.fork_ret = 0
      · rw [on_tx_child_stop env s hm hp hk hf]
        refine ⟨⟨_, rfl⟩, ?_, fun h => absurd hf h⟩
        rw [Outcome.after_state, pipeline_child_state]
      · rw [on_tx_parent_stop env s hm hp hk hf]
        refine ⟨⟨_, rfl⟩, ?_, fun _ => ?_⟩
        · rw [Outcome.after_state, control_then_notify_state]
        · rw [Outcome.after_state, control_then_notify_state]
          exact ⟨rfl, rfl⟩
    refine ⟨⟨fun hk => ?_, fun h => ?_⟩, fun h => hok (by tauto)⟩
    · rw [on_tx_fatal env s hm hp hk]
      exact ⟨rfl, by simp, rfl, rfl⟩
    · by_contra hk
      obtain ⟨rest, hrest⟩ := (hok hk).1
      exact h.2.1 (by rw [← hrest]; simp)
  · intro hm hp
    have hok : ¬ (env.killpg_ret 0 = -1 ∧ env.killpg_errno 0 ≠ ESRCH) →
        [Event.usleep 1500000, Event.killpg s.tx_pid SIGTERM, Event.store_tx_pid 0, Event.fork]
            <+: (on_rx_button_clicked env s).trace ∧
          (on_rx_button_clicked env s).state.tx_pid = 0 ∧
          (env.fork_ret ≠ 0 → (on_rx_button_clicked env s).state.rx_pid = env.fork_ret ∧
            (on_rx_button_clicked env s).state.rxtx_mode = 1) := by
      intro hk
      by_cases hf : env.fork_ret = 0
      · rw [on_rx_child_stop env s hm hp hk hf]
        refine ⟨⟨_, rfl⟩, ?_, fun h => absurd hf h⟩
        rw [Outcome.after_state, pipeline_child_state]
      · rw [on_rx_parent_stop env s hm hp hk hf]
        refine ⟨⟨_, rfl⟩, ?_, fun _ => ?_⟩
        · rw [Outcome.after_state, control_then_notify_state]
        · rw [Outcome.after_state, control_then_notify_state]
          exact ⟨rfl, rfl⟩
    refine ⟨⟨fun hk => ?_, fun h => ?_⟩, fun h => hok (by tauto)⟩
    · rw [on_rx_fatal env s hm hp hk]
      exact ⟨rfl, by simp, rfl, rfl⟩
    · by_contra hk
      obtain ⟨rest, hrest⟩ := (hok hk).1
      exact h.2.1 (by rw [← hrest]; simp)

/-- Witness of C7: a TX click while receiving with pid 41 when `killpg` fails with
`ESRCH` (the transition goes on), and an RX click while transmitting with pid 40
when `killpg` fails with `EPERM` = 1 (the run exits before the fork). -/
theorem stop_failure_is_fatal_unless_esrch_witness :
    ((State.mk 1 0 41 0).rxtx_mode ≠ 0 ∧ 0 < (State.mk 1 0 41 0).rx_pid ∧
      ((env_killpg_fails 42 ESRCH).killpg_ret 0 ≠ -1 ∨
        (env_killpg_fails 42 ESRCH).killpg_errno 0 = ESRCH)) ∧
    ([Event.killpg 41 SIGTERM, Event.store_rx_pid 0, Event.fork]
        <+: (on_tx_button_clicked (env_killpg_fails 42 ESRCH) (State.mk 1 0 41 0)).trace ∧
      (on_tx_button_clicked (env_killpg_fails 42 ESRCH) (State.mk 1 0 41 0)).state.rx_pid = 0) ∧
    ((State.mk 0 40 0 0).rxtx_mode ≠ 1 ∧ 0 < (State.mk 0 40 0 0).tx_pid ∧
      ((env_killpg_fails 41 1).killpg_ret 0 = -1 ∧ (env_killpg_fails 41 1).killpg_errno 0 ≠ ESRCH)) ∧
    ((on_rx_button_clicked (env_killpg_fails 41 1) (State.mk 0 40 0 0)).status
        = Status.exited EXIT_FAILURE ∧
      Event.fork ∉ (on_rx_button_clicked (env_killpg_fails 41 1) (State.mk 0 40 0 0)).trace ∧
      server_sends (on_rx_button_clicked (env_killpg_fails 41 1) (State.mk 0 40 0 0)).trace = [] ∧
      ipc_sends (on_rx_button_clicked (env_killpg_fails 41 1) (State.mk 0 40 0 0)).trace = []) :=
  ⟨⟨by decide, by decide, by decide⟩,
    ⟨(((stop_failure_is_fatal_unless_esrch (env_killpg_fails 42 ESRCH) (State.mk 1 0 41 0)).1
        (by decide) (by decide)).2 (by decide)).1,
      (((stop_failure_is_fatal_unless_esrch (env_killpg_fails 42 ESRCH) (State.mk 1 0 41 0)).1
        (by decide) (by decide)).2 (by decide)).2.1⟩,
    ⟨by decide, by decide, by decide⟩,
    ((stop_failure_is_fatal_unless_esrch (env_killpg_fails 41 1) (State.mk 0 40 0 0)).2
      (by decide) (by decide)).1.mp (by decide)⟩

/-- C8 (code evaluated at the failing input): with `fork` returning -1 in the
initial state, the TX callback keeps running, stores -1 in `tx_pid`, sets the
mode to TX and sends `T 1` and `TX_ON`; the RX callback likewise. -/
theorem fork_failure_is_not_checked :
    on_tx_button_clicked env_fork_fails initial_state =
      Outcome.mk { rxtx_mode := 0, tx_pid := -1, rx_pid := 0, python_pid := 0 }
        [Event.fork, Event.store_tx_pid (-1), Event.store_rxtx_mode 0,
          Event.send_server "T 1\n", Event.ipc_send "TX_ON"]
        Status.running ∧
    on_rx_button_clicked env_fork_fails initial_state =
      Outcome.mk { rxtx_mode := 1, tx_pid := 0, rx_pid := -1, python_pid := 0 }
        [Event.fork, Event.store_rx_pid (-1), Event.store_rxtx_mode 1,
          Event.send_server "T 0\n", Event.ipc_send "TX_OFF"]
        Status.running := by
  decide

/-- C9: in `change_frequency` (frequency fitting the 20-byte buffer), when the
sends before position `i` succeed and the `i`-th send fails, the run exits with
`EXIT_FAILURE` right after that send: the commands before `i` were sent and
paced, the `i`-th was attempted, and none of the later commands is sent.
Likewise `send_command` exits with `EXIT_FAILURE` when its send fails. -/
theorem failed_send_is_fatal (env : Env) (frequency command : String) (s : State) (i k : Nat)
    (hfit : frequency.utf8ByteSize ≤ 17) :
    (i < 5 → (∀ j, j < i → 0 ≤ env.send_ret j) → env.send_ret i < 0 →
      (change_frequency env frequency s).status = Status.exited EXIT_FAILURE ∧
      (change_frequency env frequency s).trace =
        paced ((change_frequency_commands frequency).take i) ++
          (((change_frequency_commands frequency).drop i).take 1).map Event.send_telnet ++
          [Event.exit EXIT_FAILURE] ∧
      telnet_sends (change_frequency env frequency s).trace =
        (change_frequency_commands frequency).take (i + 1)) ∧
    (env.send_ret k < 0 →
      send_command env k command s =
        Outcome.mk s [Event.send_server command, Event.exit EXIT_FAILURE]
          (Status.exited EXIT_FAILURE)) := by
  constructor
  · intro hi hprev hfail
    rw [change_frequency_failed_send env frequency s i hfit hi hprev hfail]
    refine ⟨rfl, rfl, ?_⟩
    simp only [telnet_sends_append, telnet_sends_paced, telnet_sends_map]
    have hnil : telnet_sends [Event.exit EXIT_FAILURE] = [] := rfl
    rw [hnil, List.append_nil]
    interval_cases i <;> rfl
  · intro hfail
    simp [send_command, hfail]

/-- Witness of C9: the third send (`PITCH 1500`) of `change_frequency` on 14236
fails, and the send of `send_command` fails. -/
theorem failed_send_is_fatal_witness :
    (("14236" : String).utf8ByteSize ≤ 17 ∧ 2 < 5 ∧
      (∀ j, j < 2 → 0 ≤ (env_send_fails_at 2).send_ret j) ∧ (env_send_fails_at 2).send_ret 2 < 0) ∧
    ((change_frequency (env_send_fails_at 2) "14236" initial_state).status
        = Status.exited EXIT_FAILURE ∧
      telnet_sends (change_frequency (env_send_fails_at 2) "14236" initial_state).trace
        = (change_frequency_commands "14236").take (2 + 1)) ∧
    (env_send_fails_at 0).send_ret 0 < 0 ∧
    send_command (env_send_fails_at 0) 0 "T 1\n" initial_state =
      Outcome.mk initial_state [Event.send_server "T 1\n", Event.exit EXIT_FAILURE]
        (Status.exited EXIT_FAILURE) :=
  ⟨⟨by decide, by decide, by decide, by decide⟩,
    ⟨((failed_send_is_fatal (env_send_fails_at 2) "14236" "T 1\n" initial_state 2 0
        (by decide)).1 (by decide) (by decide) (by decide)).1,
      ((failed_send_is_fatal (env_send_fails_at 2) "14236" "T 1\n" initial_state 2 0
        (by decide)).1 (by decide) (by decide) (by decide)).2.2⟩,
    by decide,
    (failed_send_is_fatal (env_send_fails_at 0) "14236" "T 1\n" initial_state 2 0
      (by decide)).2 (by decide)⟩

/-- C10: a TX (RX) click that changes the mode, whose stop of the opposing
pipeline is not fatal, sends in the parent process exactly one payload on the
control socket, `T 1` (`T 0`) with its line terminator, and nothing on the
command socket; that send comes after the `fork` and the stores of the new pid
and mode, and is followed only by the notification `TX_ON` (`TX_OFF`), or by
`exit` when the send failed. -/
theorem one_control_command_per_transition (env : Env) (s : State) :
    (s.rxtx_mode ≠ 0 →
      ¬ (0 < s.rx_pid ∧ env.killpg_ret 0 = -1 ∧ env.killpg_errno 0 ≠ ESRCH) →
      env.fork_ret ≠ 0 →
      (on_tx_button_clicked env s).trace =
        stop_events [] s.rx_pid (Event.store_rx_pid 0) ++
          [Event.fork, Event.store_tx_pid env.fork_ret, Event.store_rxtx_mode 0] ++
          control_events env "T 1\n" "TX_ON" s ∧
      server_sends (on_tx_button_clicked env s).trace = ["T 1\n"] ∧
      telnet_sends (on_tx_button_clicked env s).trace = []) ∧
    (s.rxtx_mode ≠ 1 →
      ¬ (0 < s.tx_pid ∧ env.killpg_ret 0 = -1 ∧ env.killpg_errno 0 ≠ ESRCH) →
      env.fork_ret ≠ 0 →
      (on_rx_button_clicked env s).trace =
        stop_events [Event.usleep 1500000] s.tx_pid (Event.store_tx_pid 0) ++
          [Event.fork, Event.store_rx_pid env.fork_ret, Event.store_rxtx_mode 1] ++
          control_events env "T 0\n" "TX_OFF" s ∧
      server_sends (on_rx_button_clicked env s).trace = ["T 0\n"] ∧
      telnet_sends (on_rx_button_clicked env s).trace = []) := by
  constructor
  · intro hm hstop hf
    rw [on_tx_parent env s hm hstop hf]
    refine ⟨rfl, ?_, ?_⟩
    · simp only [server_sends_append, (control_events_sends env _ _ s).1,
        (stop_events_sends [] s.rx_pid 0 (Or.inl rfl)).1.1]
      rfl
    · simp only [telnet_sends_append, (control_events_sends env _ _ s).2,
        (stop_events_sends [] s.rx_pid 0 (Or.inl rfl)).1.2]
      rfl
  · intro hm hstop hf
    rw [on_rx_parent env s hm hstop hf]
    refine ⟨rfl, ?_, ?_⟩
    · simp only [server_sends_append, (control_events_sends env _ _ s).1,
        (stop_events_sends [Event.usleep 1500000] s.tx_pid 0 (Or.inr rfl)).2.1]
      rfl
    · simp only [telnet_sends_append, (control_events_sends env _ _ s).2,
        (stop_events_sends [Event.usleep 1500000] s.tx_pid 0 (Or.inr rfl)).2.2]
      rfl

/-- Witness of C10: a TX click while receiving with pid 41 and an RX click while
transmitting with pid 40, every system call succeeding. -/
theorem one_control_command_per_transition_witness :
    ((State.mk 1 0 41 0).rxtx_mode ≠ 0 ∧
      ¬ (0 < (State.mk 1 0 41 0).rx_pid ∧ (env_ok 42).killpg_ret 0 = -1 ∧
        (env_ok 42).killpg_errno 0 ≠ ESRCH) ∧
      (env_ok 42).fork_ret ≠ 0) ∧
    ((on_tx_button_clicked (env_ok 42) (State.mk 1 0 41 0)).trace =
        stop_events [] 41 (Event.store_rx_pid 0) ++
          [Event.fork, Event.store_tx_pid 42, Event.store_rxtx_mode 0] ++
          control_events (env_ok 42) "T 1\n" "TX_ON" (State.mk 1 0 41 0) ∧
      server_sends (on_tx_button_clicked (env_ok 42) (State.mk 1 0 41 0)).trace = ["T 1\n"] ∧
      telnet_sends (on_tx_button_clicked (env_ok 42) (State.mk 1 0 41 0)).trace = []) ∧
    ((State.mk 0 40 0 0).rxtx_mode ≠ 1 ∧
      ¬ (0 < (State.mk 0 40 0 0).tx_pid ∧ (env_ok 41).killpg_ret 0 = -1 ∧
        (env_ok 41).killpg_errno 0 ≠ ESRCH) ∧
      (env_ok 41).fork_ret ≠ 0) ∧
    (on_rx_button_clicked (env_ok 41) (State.mk 0 40 0 0)).trace =
        [Event.usleep 1500000, Event.killpg 40 SIGTERM, Event.store_tx_pid 0, Event.fork,
          Event.store_rx_pid 41, Event.store_rxtx_mode 1, Event.send_server "T 0\n",
          Event.ipc_send "TX_OFF"] :=
  ⟨⟨by decide, by decide, by decide⟩,
    (one_control_command_per_transition (env_ok 42) (State.mk 1 0 41 0)).1
      (by decide) (by decide) (by decide),
    ⟨by decide, by decide, by decide⟩,
    ((one_control_command_per_transition (env_ok 41) (State.mk 0 40 0 0)).2
      (by decide) (by decide) (by decide)).1⟩

/-- C11: for every frequency (fitting the 20-byte command buffer) and when no
send fails, the trace of `change_frequency` is the five sends on the command
socket, each one immediately followed by a `nanosleep` of 0 s 200,000,000 ns,
so a 200 ms delay lies between any two successive commands. -/
theorem change_frequency_sends_are_paced (env : Env) (frequency : String) (s : State)
    (hfit : frequency.utf8ByteSize ≤ 17) (hsend : ∀ i, i < 5 → 0 ≤ env.send_ret i) :
    (change_frequency env frequency s).trace =
      [Event.send_telnet ("f " ++ frequency), Event.nanosleep 0 200000000,
       Event.send_telnet (change_mode_command frequency), Event.nanosleep 0 200000000,
       Event.send_telnet "PITCH 1500", Event.nanosleep 0 200000000,
       Event.send_telnet "LOW 900", Event.nanosleep 0 200000000,
       Event.send_telnet "HIGH 2100", Event.nanosleep 0 200000000] := by
  rw [change_frequency_all_sent env frequency s hfit hsend]
  rfl

/-- Witness of C11: the frequency 14236 with every send succeeding. -/
theorem change_frequency_sends_are_paced_witness :
    ("14236" : String).utf8ByteSize ≤ 17 ∧ (∀ i, i < 5 → 0 ≤ (env_ok 1).send_ret i) ∧
    (change_frequency (env_ok 1) "14236" initial_state).trace =
      [Event.send_telnet "f 14236", Event.nanosleep 0 200000000,
       Event.send_telnet "m DIGITAL", Event.nanosleep 0 200000000,
       Event.send_telnet "PITCH 1500", Event.nanosleep 0 200000000,
       Event.send_telnet "LOW 900", Event.nanosleep 0 200000000,
       Event.send_telnet "HIGH 2100", Event.nanosleep 0 200000000] :=
  ⟨by decide, fun _ _ => by simp [env_ok],
    change_frequency_sends_are_paced (env_ok 1) "14236" initial_state (by decide)
      (fun _ _ => by simp [env_ok])⟩

set_option maxRecDepth 100000 in
/-- C12 (as stated, refuted): on the default configuration, saving the value
"W2 JON" (not empty, no `=`, no newline) under `callsign` and loading it returns
"W2"; and saving "hello" under `message` and loading it returns the default,
because the line of `version` contains blanks. -/
theorem round_trip_counterexample :
    load_config "callsign" "N0CALL"
        (save_config "callsign" "W2 JON" true (create_default_config true none)) = "W2" ∧
    load_config "callsign" "N0CALL"
        (save_config "callsign" "W2 JON" true (create_default_config true none)) ≠ "W2 JON" ∧
    load_config "message" "none"
        (save_config "message" "hello" true (create_default_config true none)) = "none" := by
  decide

/-- C12 (amended): for a key that is not empty, at most 49 bytes, without `=`
and white space, and a value that is not empty, at most 255 bytes and without
white space, on a store that starts with well-formed lines `key=value` (keys and
values of that kind, each line at most 255 bytes) followed by any text, when the
key is one of the keys of these lines or there is no other text, `save_config`
followed by `load_config` returns exactly the value, for every default. -/
theorem save_then_load_returns_value (key value default_value : String)
    (es : List (String × String)) (tail : String)
    (hk : key_ok key = true) (hv : value_ok value = true) (hes : ∀ e ∈ es, entry_ok e = true)
    (hfound : key ∈ es.map Prod.fst ∨ tail = "") :
    load_config key default_value (save_config key value true (some (store_text es tail)))
      = value := by
  have hfound' : key ∈ es.map Prod.fst ∨ tail.toList = [] := by
    rcases hfound with h | h
    · exact Or.inl h
    · right; rw [h]; rfl
  have h := load_after_save_entries key value es tail.toList
    ((save_text key.toList value.toList (render_entries es ++ tail.toList)).length + 1)
    hk hv hes hfound' (Nat.lt_succ_self _)
  show (match load_loop key.toList
      ((save_text key.toList value.toList (render_entries es ++ tail.toList)).length + 1)
      (save_text key.toList value.toList (render_entries es ++ tail.toList)) with
    | some file_value => String.mk file_value
    | none => default_value) = value
  rw [h]
  rfl

/-- Witness of C12 (amended): the default configuration, split into its first
six lines and the two last ones, with the key `callsign` and the value W2JON. -/
theorem save_then_load_returns_value_witness :
    store_text default_entries default_tail = default_config_text ∧
    (key_ok "callsign" = true ∧ value_ok "W2JON" = true ∧
      (∀ e ∈ default_entries, entry_ok e = true) ∧
      ("callsign" ∈ default_entries.map Prod.fst ∨ default_tail = "")) ∧
    load_config "callsign" "N0CALL"
      (save_config "callsign" "W2JON" true (some (store_text default_entries default_tail)))
      = "W2JON" :=
  ⟨by decide, ⟨by decide, by decide, by decide, by decide⟩,
    save_then_load_returns_value "callsign" "W2JON" "N0CALL" default_entries default_tail
      (by decide) (by decide) (by decide) (by decide)⟩

/-- C13: whatever `socket`, `inet_pton` and `connect` return inside
`send_ipc_command` (in particular when one of them fails), a TX click, an RX
click and a frequency selection end with the same status, the same globals and,
apart from the send to the bridge, the same trace, hence the same commands on
both rig sockets, as with any other results of these three calls. -/
theorem notification_failure_is_not_propagated (env : Env) (a b c : Int) (full_text : String)
    (s : State) :
    ((on_tx_button_clicked (with_ipc_results env a b c) s).status = (on_tx_button_clicked env s).status ∧
      (on_tx_button_clicked (with_ipc_results env a b c) s).state = (on_tx_button_clicked env s).state ∧
      without_ipc (on_tx_button_clicked (with_ipc_results env a b c) s).trace
        = without_ipc (on_tx_button_clicked env s).trace ∧
      telnet_sends (on_tx_button_clicked (with_ipc_results env a b c) s).trace
        = telnet_sends (on_tx_button_clicked env s).trace ∧
      server_sends (on_tx_button_clicked (with_ipc_results env a b c) s).trace
        = server_sends (on_tx_button_clicked env s).trace) ∧
    ((on_rx_button_clicked (with_ipc_results env a b c) s).status = (on_rx_button_clicked env s).status ∧
      (on_rx_button_clicked (with_ipc_results env a b c) s).state = (on_rx_button_clicked env s).state ∧
      without_ipc (on_rx_button_clicked (with_ipc_results env a b c) s).trace
        = without_ipc (on_rx_button_clicked env s).trace ∧
      telnet_sends (on_rx_button_clicked (with_ipc_results env a b c) s).trace
        = telnet_sends (on_rx_button_clicked env s).trace ∧
      server_sends (on_rx_button_clicked (with_ipc_results env a b c) s).trace
        = server_sends (on_rx_button_clicked env s).trace) ∧
    ((menu_item_selected (with_ipc_results env a b c) full_text s).status
        = (menu_item_selected env full_text s).status ∧
      (menu_item_selected (with_ipc_results env a b c) full_text s).state
        = (menu_item_selected env full_text s).state ∧
      without_ipc (menu_item_selected (with_ipc_results env a b c) full_text s).trace
        = without_ipc (menu_item_selected env full_text s).trace ∧
      telnet_sends (menu_item_selected (with_ipc_results env a b c) full_text s).trace
        = telnet_sends (menu_item_selected env full_text s).trace ∧
      server_sends (menu_item_selected (with_ipc_results env a b c) full_text s).trace
        = server_sends (menu_item_selected env full_text s).trace) := by
  have key : ∀ o o' : Outcome, (o'.status = o.status ∧ o'.state = o.state ∧
      without_ipc o'.trace = without_ipc o.trace) →
      o'.status = o.status ∧ o'.state = o.state ∧ without_ipc o'.trace = without_ipc o.trace ∧
      telnet_sends o'.trace = telnet_sends o.trace ∧
      server_sends o'.trace = server_sends o.trace := by
    intro o o' h
    refine ⟨h.1, h.2.1, h.2.2, ?_, ?_⟩
    · rw [← telnet_sends_without_ipc o'.trace, h.2.2, telnet_sends_without_ipc]
    · rw [← server_sends_without_ipc o'.trace, h.2.2, server_sends_without_ipc]
  exact ⟨key _ _ (on_tx_ipc_frame env a b c s), key _ _ (on_rx_ipc_frame env a b c s),
    key _ _ (menu_item_selected_ipc_frame env a b c full_text s)⟩

/-- C15 (code evaluated at the failing input): `start_python_script` with `fork`
returning 1001 records that pid and neither branch calls `setpgid`, so the
bridge stays in the process group of the program and no process group 1001
exists; `handle_termination` then signals process group 1001 with
`kill(-1001, SIGTERM)` and waits for pid 1001: while the bridge keeps running the
`waitpid` does not return, and the handler reaches neither `close` nor `exit`.
When the `waitpid` returns, the handler closes the control socket and exits
with code 0, and in both cases it signals neither pipeline group. -/
theorem shutdown_signals_a_group_never_created :
    start_python_script (env_ok 1001) initial_state =
      Outcome.mk { rxtx_mode := -1, tx_pid := 0, rx_pid := 0, python_pid := 1001 }
        [Event.fork, Event.store_python_pid 1001] Status.running ∧
    start_python_script (env_ok 0) initial_state =
      Outcome.mk initial_state
        [Event.fork, Event.store_python_pid 0,
          Event.execl "/usr/bin/python3" ["python3", "/home/pi/freedv_ptt/sioclient.py"]]
        Status.replaced ∧
    handle_termination false (start_python_script (env_ok 1001) initial_state).state =
      Outcome.mk { rxtx_mode := -1, tx_pid := 0, rx_pid := 0, python_pid := 1001 }
        [Event.kill (-1001) SIGTERM, Event.waitpid 1001] Status.blocked ∧
    handle_termination true { rxtx_mode := 0, tx_pid := 40, rx_pid := 0, python_pid := 1001 } =
      Outcome.mk { rxtx_mode := 0, tx_pid := 40, rx_pid := 0, python_pid := 1001 }
        [Event.kill (-1001) SIGTERM, Event.waitpid 1001, Event.close_server, Event.exit 0]
        (Status.exited 0) := by
  decide

set_option maxRecDepth 100000 in
/-- C16: on the file written by `create_default_config`, `load_config` returns
700D for `fdvmode`, N0CALL for `callsign`, AA00ab for `grid_square`, -5 for
`squelch_level` and 1 for `input_level`, whatever the default argument and
whatever the file was before. -/
theorem default_config_values (default_value : String) (file : Option String) :
    load_config "fdvmode" default_value (create_default_config true file) = "700D" ∧
    load_config "callsign" default_value (create_default_config true file) = "N0CALL" ∧
    load_config "grid_square" default_value (create_default_config true file) = "AA00ab" ∧
    load_config "squelch_level" default_value (create_default_config true file) = "-5" ∧
    load_config "input_level" default_value (create_default_config true file) = "1" := by
  have h1 : load_loop ("fdvmode" : String).toList (default_config_text.length + 1)
      default_config_text.toList = some ("700D" : String).toList := by decide
  have h2 : load_loop ("callsign" : String).toList (default_config_text.length + 1)
      default_config_text.toList = some ("N0CALL" : String).toList := by decide
  have h3 : load_loop ("grid_square" : String).toList (default_config_text.length + 1)
      default_config_text.toList = some ("AA00ab" : String).toList := by decide
  have h4 : load_loop ("squelch_level" : String).toList (default_config_text.length + 1)
      default_config_text.toList = some ("-5" : String).toList := by decide
  have h5 : load_loop ("input_level" : String).toList (default_config_text.length + 1)
      default_config_text.toList = some ("1" : String).toList := by decide
  simp only [create_default_config, if_true, load_config, h1, h2, h3, h4, h5]
  exact ⟨rfl, rfl, rfl, rfl, rfl⟩

/-- C17 (as stated, refuted): after a TX click whose `fork` failed, `tx_pid` is
-1; closing the window then signals nothing, no signal fails, and `tx_pid` is
still -1, not 0.  And in a state with both pids active, when the signal to the
transmit group fails with `EPERM` = 1 the run exits before the receive group is
signalled. -/
theorem window_close_keeps_negative_pid_counterexample :
    (on_tx_button_clicked env_fork_fails initial_state).state = State.mk 0 (-1) 0 0 ∧
    on_window_closed (env_ok 1) (State.mk 0 (-1) 0 0) =
      Outcome.mk (State.mk 0 (-1) 0 0) [Event.close_server, Event.gtk_main_quit] Status.running ∧
    (on_window_closed (env_ok 1) (State.mk 0 (-1) 0 0)).state.tx_pid ≠ 0 ∧
    on_window_closed (env_killpg_fails 1 1) (State.mk 1 40 41 0) =
      Outcome.mk (State.mk 1 40 41 0)
        [Event.close_server, Event.killpg 40 SIGTERM, Event.exit EXIT_FAILURE]
        (Status.exited EXIT_FAILURE) := by
  decide

/-- C17 (amended): closing the window closes the control socket, then signals
the transmit group when `tx_pid > 0` and, unless that signal failed with an
error other than `ESRCH`, the receive group when `rx_pid > 0`; only active pids
are ever signalled.  When no signal fails with an error other than `ESRCH`, the
callback returns, every active pid is set to 0 and an inactive pid keeps its
value, so `tx_pid = rx_pid = 0` afterwards whenever neither pid was negative. -/
theorem window_close_stops_active_pipelines (env : Env) (s : State) :
    (0 < s.tx_pid → Event.killpg s.tx_pid SIGTERM ∈ (on_window_closed env s).trace) ∧
    (0 < s.rx_pid →
      ¬ (0 < s.tx_pid ∧ env.killpg_ret 0 = -1 ∧ env.killpg_errno 0 ≠ ESRCH) →
      Event.killpg s.rx_pid SIGTERM ∈ (on_window_closed env s).trace) ∧
    (∀ p sig, Event.killpg p sig ∈ (on_window_closed env s).trace →
      0 < p ∧ sig = SIGTERM ∧ (p = s.tx_pid ∨ p = s.rx_pid)) ∧
    (¬ (0 < s.tx_pid ∧ env.killpg_ret 0 = -1 ∧ env.killpg_errno 0 ≠ ESRCH) →
      ¬ (0 < s.rx_pid ∧ env.killpg_ret (if 0 < s.tx_pid then 1 else 0) = -1 ∧
        env.killpg_errno (if 0 < s.tx_pid then 1 else 0) ≠ ESRCH) →
      (on_window_closed env s).status = Status.running ∧
      (on_window_closed env s).trace =
        Event.close_server :: stop_events [] s.tx_pid (Event.store_tx_pid 0) ++
          stop_events [] s.rx_pid (Event.store_rx_pid 0) ++ [Event.gtk_main_quit] ∧
      (on_window_closed env s).state.tx_pid = (if 0 < s.tx_pid then 0 else s.tx_pid) ∧
      (on_window_closed env s).state.rx_pid = (if 0 < s.rx_pid then 0 else s.rx_pid) ∧
      (0 ≤ s.tx_pid → 0 ≤ s.rx_pid →
        (on_window_closed env s).state.tx_pid = 0 ∧ (on_window_closed env s).state.rx_pid = 0)) := by
  by_cases h1 : 0 < s.tx_pid ∧ env.killpg_ret 0 = -1 ∧ env.killpg_errno 0 ≠ ESRCH
  · rw [on_window_closed_tx_fatal env s h1.1 h1.2]
    refine ⟨fun _ => by simp, fun _ h => absurd h1 h, ?_, fun h => absurd h1 h⟩
    intro p sig hmem
    simp only [List.mem_cons, List.mem_singleton, List.not_mem_nil, or_false] at hmem
    rcases hmem with h | h | h
    · cases h
    · cases h; exact ⟨h1.1, rfl, Or.inl rfl⟩
    · cases h
  · by_cases h2 : 0 < s.rx_pid ∧ env.killpg_ret (if 0 < s.tx_pid then 1 else 0) = -1 ∧
        env.killpg_errno (if 0 < s.tx_pid then 1 else 0) ≠ ESRCH
    · rw [on_window_closed_rx_fatal env s h1 h2.1 h2.2]
      refine ⟨fun ht => ?_, fun _ _ => by simp, ?_, fun _ h => absurd h2 h⟩
      · simp [stop_events, ht]
      · intro p sig hmem
        unfold stop_events at hmem
        split at hmem
        · rename_i ht
          simp only [List.nil_append, List.cons_append, List.mem_cons, List.mem_singleton,
            List.not_mem_nil, or_false] at hmem
          rcases hmem with h | h | h | h | h
          · cases h
          · cases h; exact ⟨ht, rfl, Or.inl rfl⟩
          · cases h
          · cases h; exact ⟨h2.1, rfl, Or.inr rfl⟩
          · cases h
        · simp only [List.nil_append, List.cons_append, List.mem_cons, List.mem_singleton,
            List.not_mem_nil, or_false] at hmem
          rcases hmem with h | h | h
          · cases h
          · cases h; exact ⟨h2.1, rfl, Or.inr rfl⟩
          · cases h
    · rw [on_window_closed_done env s h1 h2]
      refine ⟨fun ht => ?_, fun hr _ => ?_, ?_, fun _ _ => ⟨rfl, rfl, rfl, rfl, ?_⟩⟩
      · simp [stop_events, ht]
      · simp [stop_events, hr]
      · intro p sig hmem
        unfold stop_events at hmem
        by_cases ht : 0 < s.tx_pid <;> by_cases hr : 0 < s.rx_pid <;>
          simp only [ht, hr, if_true, if_false, List.nil_append, List.cons_append,
            List.mem_cons, List.mem_singleton, List.not_mem_nil, or_false, false_or,
            List.append_nil] at hmem
        · rcases hmem with h | h | h | h | h | h
          · cases h
          · cases h; exact ⟨ht, rfl, Or.inl rfl⟩
          · cases h
          · cases h; exact ⟨hr, rfl, Or.inr rfl⟩
          · cases h
          · cases h
        · rcases hmem with h | h | h | h
          · cases h
          · cases h; exact ⟨ht, rfl, Or.inl rfl⟩
          · cases h
          · cases h
        · rcases hmem with h | h | h | h
          · cases h
          · cases h; exact ⟨hr, rfl, Or.inr rfl⟩
          · cases h
          · cases h
        · rcases hmem with h | h
          · cases h
          · cases h
      · intro ht hr
        show (if 0 < s.tx_pid then 0 else s.tx_pid) = 0 ∧ (if 0 < s.rx_pid then 0 else s.rx_pid) = 0
        constructor <;> split <;> omega

/-- Witness of C17 (amended): closing the window while transmitting with pid 40,
and in a state with both pids active where the signal to the receive group fails
with `ESRCH`. -/
theorem window_close_stops_active_pipelines_witness :
    ((0 : Int) < (State.mk 0 40 0 0).tx_pid ∧
      Event.killpg 40 SIGTERM ∈ (on_window_closed (env_ok 1) (State.mk 0 40 0 0)).trace) ∧
    ((0 : Int) < (State.mk 1 40 41 0).rx_pid ∧
      ¬ (0 < (State.mk 1 40 41 0).tx_pid ∧ (env_killpg_fails 1 ESRCH).killpg_ret 0 = -1 ∧
        (env_killpg_fails 1 ESRCH).killpg_errno 0 ≠ ESRCH) ∧
      ¬ (0 < (State.mk 1 40 41 0).rx_pid ∧
        (env_killpg_fails 1 ESRCH).killpg_ret (if 0 < (State.mk 1 40 41 0).tx_pid then 1 else 0) = -1 ∧
        (env_killpg_fails 1 ESRCH).killpg_errno (if 0 < (State.mk 1 40 41 0).tx_pid then 1 else 0)
          ≠ ESRCH) ∧
      (0 : Int) ≤ (State.mk 1 40 41 0).tx_pid ∧ (0 : Int) ≤ (State.mk 1 40 41 0).rx_pid) ∧
    Event.killpg 41 SIGTERM ∈ (on_window_closed (env_killpg_fails 1 ESRCH) (State.mk 1 40 41 0)).trace ∧
    (on_window_closed (env_killpg_fails 1 ESRCH) (State.mk 1 40 41 0)).status = Status.running ∧
    ((on_window_closed (env_killpg_fails 1 ESRCH) (State.mk 1 40 41 0)).state.tx_pid = 0 ∧
      (on_window_closed (env_killpg_fails 1 ESRCH) (State.mk 1 40 41 0)).state.rx_pid = 0) :=
  ⟨⟨by decide,
      (window_close_stops_active_pipelines (env_ok 1) (State.mk 0 40 0 0)).1 (by decide)⟩,
    ⟨by decide, by decide, by decide, by decide, by decide⟩,
    (window_close_stops_active_pipelines (env_killpg_fails 1 ESRCH) (State.mk 1 40 41 0)).2.1
      (by decide) (by decide),
    ((window_close_stops_active_pipelines (env_killpg_fails 1 ESRCH) (State.mk 1 40 41 0)).2.2.2
      (by decide) (by decide)).1,
    ((window_close_stops_active_pipelines (env_killpg_fails 1 ESRCH) (State.mk 1 40 41 0)).2.2.2
      (by decide) (by decide)).2.2.2.2 (by decide) (by decide)⟩

/-- C18: from the initial state, when every `fork` of the sequence returns a
positive pid, after every prefix of every sequence of TX / RX clicks (fatal step
or not) the mode is -1, 0 or 1; mode 0 comes with `tx_pid > 0` and `rx_pid = 0`,
mode 1 with `rx_pid > 0` and `tx_pid = 0`, and mode -1 with both pids 0. -/
theorem mode_and_handles_stay_consistent (clicks : List (Request × Env)) (n : Nat)
    (hspawn : ∀ c ∈ clicks, 0 < c.2.fork_ret) :
    ((run_clicks (clicks.take n) initial_state).state.rxtx_mode = -1 ∨
      (run_clicks (clicks.take n) initial_state).state.rxtx_mode = 0 ∨
      (run_clicks (clicks.take n) initial_state).state.rxtx_mode = 1) ∧
    ((run_clicks (clicks.take n) initial_state).state.rxtx_mode = 0 →
      0 < (run_clicks (clicks.take n) initial_state).state.tx_pid ∧
      (run_clicks (clicks.take n) initial_state).state.rx_pid = 0) ∧
    ((run_clicks (clicks.take n) initial_state).state.rxtx_mode = 1 →
      0 < (run_clicks (clicks.take n) initial_state).state.rx_pid ∧
      (run_clicks (clicks.take n) initial_state).state.tx_pid = 0) ∧
    ((run_clicks (clicks.take n) initial_state).state.rxtx_mode = -1 →
      (run_clicks (clicks.take n) initial_state).state.tx_pid = 0 ∧
      (run_clicks (clicks.take n) initial_state).state.rx_pid = 0) := by
  have h := run_clicks_keeps_mode_matching (clicks.take n)
    (fun c hc => hspawn c (List.mem_of_mem_take hc)) initial_state
    (Or.inl ⟨rfl, rfl, rfl⟩)
  generalize (run_clicks (clicks.take n) initial_state).state = st at h ⊢
  rcases h with ⟨h1, h2, h3⟩ | ⟨h1, h2, h3⟩ | ⟨h1, h2, h3⟩
  · refine ⟨Or.inl h1, ?_, ?_, fun _ => ⟨h2, h3⟩⟩ <;> intro h <;> rw [h1] at h <;> cases h
  · refine ⟨Or.inr (Or.inl h1), fun _ => ⟨h2, h3⟩, ?_, ?_⟩ <;> intro h <;> rw [h1] at h <;> cases h
  · refine ⟨Or.inr (Or.inr h1), ?_, fun _ => ⟨h2, h3⟩, ?_⟩ <;> intro h <;> rw [h1] at h <;> cases h

/-- Witness of C18: TX, RX, TX clicks with forks returning 40, 41, 42. -/
theorem mode_and_handles_stay_consistent_witness :
    (∀ c ∈ [(Request.transmit, env_ok 40), (Request.receive, env_ok 41),
        (Request.transmit, env_ok 42)], 0 < c.2.fork_ret) ∧
    ((run_clicks (List.take 3 [(Request.transmit, env_ok 40), (Request.receive, env_ok 41),
        (Request.transmit, env_ok 42)]) initial_state).state.rxtx_mode = 0 →
      0 < (run_clicks (List.take 3 [(Request.transmit, env_ok 40), (Request.receive, env_ok 41),
        (Request.transmit, env_ok 42)]) initial_state).state.tx_pid ∧
      (run_clicks (List.take 3 [(Request.transmit, env_ok 40), (Request.receive, env_ok 41),
        (Request.transmit, env_ok 42)]) initial_state).state.rx_pid = 0) ∧
    (run_clicks (List.take 3 [(Request.transmit, env_ok 40), (Request.receive, env_ok 41),
        (Request.transmit, env_ok 42)]) initial_state).state = State.mk 0 42 0 0 :=
  ⟨by decide,
    (mode_and_handles_stay_consistent
      [(Request.transmit, env_ok 40), (Request.receive, env_ok 41), (Request.transmit, env_ok 42)]
      3 (by decide)).2.1,
    by decide⟩

/-- C19: for the fourteen labels of the frequency menu, the extraction loop of
`menu_item_selected` yields the digits of the label with the decimal point
removed, each at most 9 bytes long, and `change_mode` on these strings chooses
and sends `m LSB` for the five 80 m and the two 40 m entries and `m DIGITAL`
for the seven others. -/
theorem menu_labels_frequency_and_mode (env : Env) (i : Nat) (s : State) :
    menu_labels.map extract_frequency =
      ["3625", "3643", "3693", "3697", "3850", "7177", "7197",
       "14236", "14240", "18118", "21313", "24933", "28330", "28720"] ∧
    (menu_labels.map fun l => decide ((extract_frequency l).utf8ByteSize ≤ 9)) =
      List.replicate 14 true ∧
    (menu_labels.map fun l => change_mode_command (extract_frequency l)) =
      List.replicate 7 "m LSB" ++ List.replicate 7 "m DIGITAL" ∧
    (menu_labels.map fun l => telnet_sends (change_mode env i (extract_frequency l) s).trace) =
      List.replicate 7 ["m LSB"] ++ List.replicate 7 ["m DIGITAL"] := by
  have hsend : ∀ f : String, telnet_sends (change_mode env i f s).trace
      = [change_mode_command f] := by
    intro f
    rw [change_mode_eq]
    split <;> rfl
  refine ⟨by decide, by decide, by decide, ?_⟩
  simp only [hsend]
  decide

set_option maxRecDepth 100000 in
/-- C20 (as stated, refuted): on the default configuration, saving the value
"W2 JON" under `callsign` rewrites only the line of `callsign`, and yet the
distinct key `grid_square`, whose value was AA00ab, loads as the default
afterwards: `%255s` stops at the blank and the rest of the line is read as the
start of the next key. -/
theorem save_other_key_counterexample :
    ("grid_square" : String) ≠ "callsign" ∧
    load_config "grid_square" "none" (create_default_config true none) = "AA00ab" ∧
    load_config "grid_square" "none"
      (save_config "callsign" "W2 JON" true (create_default_config true none)) = "none" ∧
    save_config "callsign" "W2 JON" true (create_default_config true none) =
      some ("fdvmode=700D\n" ++ "callsign=W2 JON\n" ++ "grid_square=AA00ab\n" ++
        "squelch_level=-5\n" ++ "input_level=1\n" ++ "start_mode=-1\n" ++
        "version=sBitx fdv_ptt 2.4.6a\n" ++ "message=--\n") := by
  decide

/-- C20 (amended): on a store that starts with well-formed lines `key=value`
followed by any text, when the saved key and value are well formed and no line
of another key starts with the text of the saved key, `save_config key value`
leaves the value that `load_config` returns for every other key that is among
these lines (for every other key at all when the store has no other text)
unchanged, and the new text starts with the same lines in the same order, each
line of the saved key replaced in place by `key=value`. -/
theorem save_keeps_other_keys (key value other default_value : String)
    (es : List (String × String)) (tail : String)
    (hk : key_ok key = true) (hv : value_ok value = true) (hes : ∀ e ∈ es, entry_ok e = true)
    (hstart : ∀ e ∈ es, line_starts_with key.toList (config_line e.1.toList e.2.toList) = true →
      e.1 = key)
    (hne : other ≠ key) (hfound : other ∈ es.map Prod.fst ∨ tail = "") :
    load_config other default_value (save_config key value true (some (store_text es tail)))
      = load_config other default_value (some (store_text es tail)) ∧
    save_config key value true (some (store_text es tail))
      = some (String.mk (save_text key.toList value.toList (store_text es tail).toList)) ∧
    render_entries (es.map fun e => if e.1 = key then (key, value) else e)
      <+: save_text key.toList value.toList (store_text es tail).toList := by
  have hfound' : other ∈ es.map Prod.fst ∨ tail.toList = [] := by
    rcases hfound with h | h
    · exact Or.inl h
    · right; rw [h]; rfl
  have hes' : ∀ e ∈ es, key_ok e.1 = true ∧ value_ok e.2 = true := fun e he =>
    ⟨(entry_ok_spec e (hes e he)).1, (entry_ok_spec e (hes e he)).2.1⟩
  have hnew := load_other_after_save_entries key value other es tail.toList
    ((save_text key.toList value.toList (render_entries es ++ tail.toList)).length + 1)
    hk hv hes hstart hne hfound' (Nat.lt_succ_self _)
  have hold := load_loop_entries other tail.toList es ((render_entries es ++ tail.toList).length + 1)
    hes' (by have := length_le_render_entries es; simp only [List.length_append]; omega) hfound'
  refine ⟨?_, rfl, ?_⟩
  · show (match load_loop other.toList
        ((save_text key.toList value.toList (render_entries es ++ tail.toList)).length + 1)
        (save_text key.toList value.toList (render_entries es ++ tail.toList)) with
      | some file_value => String.mk file_value
      | none => default_value) =
      (match load_loop other.toList ((render_entries es ++ tail.toList).length + 1)
        (render_entries es ++ tail.toList) with
      | some file_value => String.mk file_value
      | none => default_value)
    rw [hnew, hold]
  · obtain ⟨rest, hsave, -⟩ := save_text_entries key value es tail.toList hes
    show _ <+: save_text key.toList value.toList (render_entries es ++ tail.toList)
    rw [hsave, update_entries_eq_map key value es hstart]
    exact List.prefix_append _ _

/-- Witness of C20 (amended): on the default configuration, saving `callsign`
keeps the value of `fdvmode`. -/
theorem save_keeps_other_keys_witness :
    (key_ok "callsign" = true ∧ value_ok "W2JON" = true ∧
      (∀ e ∈ default_entries, entry_ok e = true) ∧
      (∀ e ∈ default_entries,
        line_starts_with ("callsign" : String).toList (config_line e.1.toList e.2.toList) = true →
          e.1 = "callsign") ∧
      ("fdvmode" : String) ≠ "callsign" ∧
      ("fdvmode" ∈ default_entries.map Prod.fst ∨ default_tail = "")) ∧
    load_config "fdvmode" "none"
        (save_config "callsign" "W2JON" true (some (store_text default_entries default_tail)))
      = load_config "fdvmode" "none" (some (store_text default_entries default_tail)) :=
  ⟨⟨by decide, by decide, by decide, by decide, by decide, by decide⟩,
    (save_keeps_other_keys "callsign" "W2JON" "fdvmode" "none" default_entries default_tail
      (by decide) (by decide) (by decide) (by decide) (by decide) (by decide)).1⟩

end FreedvPtt
